import Mathlib

/-!
Shallow embedding of the guest-process lifecycle core of the Shadow simulator
(src/main/host/process.c) and proofs about its lifecycle operations.

The Process subsystem is modelled as a single explicit state record `World`
holding the fields of `struct _Process` that the lifecycle operations touch,
together with the per-worker environment the code mutates (active-process
slot, host CPU delay, tracker processing time, global plugin-error counter),
a heap of guest threads, the single armed `ProcessWaiter`, the scheduler's
task queue, and an observable event trace.  Each C function becomes a total
Lean function `World → World` (with its oracle inputs — the behaviour of
`thread_run`/`thread_resume` and the wall-clock `elapsed` measurement —
passed explicitly).  Fatal `error(...)` calls and failed `utility_assert`s
set the `aborted` flag.  The descriptor-listener layer (descriptor.c /
descriptor_listener.c) is not part of the sources; its contract is modelled
from the specification where noted.
-/

/-- State of one guest `Thread` (the abstract interposition boundary): a
running flag, the exit code (meaningful once `running` is false), and its
reference count. -/
structure ThreadSt where
  running : Bool
  returnCode : Int
  refCount : Int
deriving DecidableEq, Repr

/-- Modelled from the spec: listener edge modes `DLF_OFF_TO_ON` and
`DLF_NEVER` of the descriptor-listener layer (descriptor_listener.h is not
among the sources). -/
inductive EdgeMode where
  | offToOn
  | never
deriving DecidableEq, Repr

/-- The two listeners a `ProcessWaiter` can install. -/
inductive LSide where
  | timer
  | desc
deriving DecidableEq, Repr

/-- Modelled from the spec: the observable state of one descriptor listener
(its monitored status mask, edge mode, and whether its single reference has
been dropped).  The listener objects themselves live in descriptor_listener.c,
which is not among the sources; the spec describes them as
`new / setMonitorStatus / addListener / removeListener / unref`. -/
structure ListenerSt where
  monitorStatus : Nat
  edge : EdgeMode
  freed : Bool
deriving DecidableEq, Repr

/-- `struct _ProcessWaiter` from process.c: the guest thread to resume, the
optional timer and descriptor together with their listeners, attachment
state of each listener, and the waiter's reference count. -/
structure WaiterSt where
  thread : Option Nat
  timer : Option Nat
  timerListener : Option ListenerSt
  timerAttached : Bool
  descriptor : Option Nat
  descListener : Option ListenerSt
  descAttached : Bool
  refCount : Int
  freed : Bool
deriving DecidableEq, Repr

/-- A scheduler task posted by `process_schedule`: start or stop, its delay,
and whether it owns a `Process` reference (released by its free callback). -/
structure TaskSt where
  isStart : Bool
  delay : Nat
  holdsProcRef : Bool
deriving DecidableEq, Repr

/-- Observable events emitted by the embedded operations, in program order. -/
inductive Ev where
  | removeListener (s : LSide)
  | setMonitor (s : LSide) (mask : Nat) (edge : EdgeMode)
  | addListener (s : LSide)
  | unrefListener (s : LSide)
  | refProcess
  | unrefProcess
  | freeProcess
  | refThread (tid : Nat)
  | resumeThread (tid : Nat)
  | runThread (tid : Nat)
  | terminateThread (tid : Nat)
  | unrefThread (tid : Nat)
  | refDescriptor (d : Nat)
  | unrefDescriptor (d : Nat)
  | unrefHost
  | freeWaiter
  | closeFD (fd : Int)
  | freeArgv
  | freeEnvv
  | setActive (b : Bool)
  | logReturn (line : String)
  | postTask (isStart : Bool) (delay : Nat)
deriving DecidableEq, Repr

/-- The whole state a lifecycle operation of process.c can read or write:
the `struct _Process` fields, the worker/host environment, the thread heap,
the armed waiter, the task queue, and the event trace.  `aborted` records a
fatal `error(...)` or a failed `utility_assert`. -/
structure World where
  threads : List (Nat × ThreadSt)
  mainThread : Option Nat
  threadIDCounter : Nat
  procName : String
  procRefCount : Int
  procFreed : Bool
  isExecuting : Bool
  totalRunTime : ℚ
  didLogReturnCode : Bool
  startTime : Nat
  stopTime : Nat
  stdoutFD : Int
  stderrFD : Int
  argvPresent : Bool
  envvPresent : Bool
  hostCpuDelay : Nat
  trackerTime : Nat
  activeProc : Bool
  pluginErrors : Nat
  waiter : Option WaiterSt
  notifyCount : Nat
  tasks : List TaskSt
  returnLog : List String
  trace : List Ev
  aborted : Bool
deriving DecidableEq, Repr

/-- `DS_NONE`: the empty descriptor status mask. -/
def DS_NONE : Nat := 0

/-- `DS_READABLE`: the readability bit of the descriptor status mask
(timer descriptors become readable when they expire). -/
def DS_READABLE : Nat := 1

/-- `SIMTIME_ONE_SECOND`: simulation-time ticks per wall second
(nanosecond resolution). -/
def simtimeOneSecond : Nat := 1000000000

/-- The C cast `(SimulationTime)(elapsedTimeSec * SIMTIME_ONE_SECOND)`:
truncate the scaled nonnegative elapsed time to a tick count. -/
def simDelay (e : ℚ) : Nat := (Rat.floor (e * (simtimeOneSecond : ℚ))).toNat

/-- Append a single event to the trace. -/
def emit (w : World) (e : Ev) : World :=
  { w with trace := w.trace ++ [e] }

/-- Append several events to the trace. -/
def emits (w : World) (es : List Ev) : World :=
  { w with trace := w.trace ++ es }

/-- Look up a thread in the heap by id. -/
def lookupThread (w : World) (tid : Nat) : Option ThreadSt :=
  w.threads.lookup tid

/-- Update the thread with the given id in the heap. -/
def updateThread (heap : List (Nat × ThreadSt)) (tid : Nat)
    (f : ThreadSt → ThreadSt) : List (Nat × ThreadSt) :=
  heap.map (fun p => if p.1 = tid then (p.1, f p.2) else p)

/-- `thread_ref`: take a reference on a thread. -/
def thread_ref (w : World) (tid : Nat) : World :=
  let w1 := emit w (Ev.refThread tid)
  let heap := updateThread w1.threads tid (fun t => { t with refCount := t.refCount + 1 })
  { w1 with threads := heap }

/-- `thread_unref`: drop a reference on a thread. -/
def thread_unref (w : World) (tid : Nat) : World :=
  let w1 := emit w (Ev.unrefThread tid)
  let heap := updateThread w1.threads tid (fun t => { t with refCount := t.refCount - 1 })
  { w1 with threads := heap }

/-- `thread_terminate`: force-stop a thread. -/
def thread_terminate (w : World) (tid : Nat) : World :=
  let w1 := emit w (Ev.terminateThread tid)
  let heap := updateThread w1.threads tid (fun t => { t with running := false })
  { w1 with threads := heap }

/-- `thread_resume`: reenter guest code of the given thread; the guest's
behaviour until the next yield or exit is the oracle `resume`. -/
def thread_resume (resume : ThreadSt → ThreadSt) (w : World) (tid : Nat) : World :=
  let w1 := emit w (Ev.resumeThread tid)
  { w1 with threads := updateThread w1.threads tid resume }

/-- `thread_run`: spawn and run the guest to its first yield or exit; the
guest's behaviour is the oracle `run`. -/
def thread_run (run : ThreadSt → ThreadSt) (w : World) (tid : Nat) : World :=
  let w1 := emit w (Ev.runThread tid)
  { w1 with threads := updateThread w1.threads tid run }

/-- `descriptor_ref` (descriptor layer, consumed interface): event only. -/
def descriptor_ref (w : World) (d : Nat) : World :=
  emit w (Ev.refDescriptor d)

/-- `descriptor_unref` (descriptor layer, consumed interface): event only. -/
def descriptor_unref (w : World) (d : Nat) : World :=
  emit w (Ev.unrefDescriptor d)

/-- `worker_setActiveProcess`: set or clear the per-worker active-process
slot. -/
def worker_setActiveProcess (w : World) (b : Bool) : World :=
  let w1 := emit w (Ev.setActive b)
  { w1 with activeProc := b }

/-- `_process_handleTimerResult`: convert elapsed wall seconds to a
simulation-time delay, add it to the host CPU model and the tracker, and
accumulate the raw seconds into `totalRunTime`. -/
def _process_handleTimerResult (w : World) (e : ℚ) : World :=
  { w with hostCpuDelay := w.hostCpuDelay + simDelay e,
           trackerTime := w.trackerTime + simDelay e,
           totalRunTime := w.totalRunTime + e }

/-- The return-code line `_process_logReturnCode` formats:
`main success code '0' for process '<name>'` on success,
`main error code '<n>' for process '<name>'` otherwise. -/
def retCodeLine (code : Int) (name : String) : String :=
  "main " ++ (if code = 0 then "success" else "error") ++ " code '"
    ++ toString code ++ "' for process '" ++ name ++ "'"

/-- `_process_logReturnCode`: on the first call, emit the return-code line
and bump the global plugin-error counter when the code is nonzero; later
calls do nothing. -/
def _process_logReturnCode (w : World) (code : Int) : World :=
  if w.didLogReturnCode then w
  else
    let line := retCodeLine code w.procName
    { w with returnLog := w.returnLog ++ [line],
             pluginErrors := w.pluginErrors + (if code = 0 then 0 else 1),
             didLogReturnCode := true,
             trace := w.trace ++ [Ev.logReturn line] }

/-- `_process_check`: nothing to do without a main thread; if the thread is
still running only an info line is logged; otherwise collect the exit code,
log it once, terminate and release the thread, and clear `mainThread`. -/
def _process_check (w : World) : World :=
  match w.mainThread with
  | none => w
  | some tid =>
    match lookupThread w tid with
    | none => w
    | some t =>
      if t.running then w
      else
        let w1 := _process_logReturnCode w t.returnCode
        let w2 := thread_terminate w1 tid
        let w3 := thread_unref w2 tid
        { w3 with mainThread := none }

/-- `process_isRunning`: the main thread exists and still reports running. -/
def process_isRunning (w : World) : Bool :=
  match w.mainThread with
  | none => false
  | some tid =>
    match lookupThread w tid with
    | none => false
    | some t => t.running

/-- `process_continue`: no-op unless running; otherwise mark the process
active, latch `isExecuting`, resume the given thread (or `mainThread` when
the argument is null), clear the latch, account the CPU burst, clear the
active slot and run `_process_check`. -/
def process_continue (resume : ThreadSt → ThreadSt) (e : ℚ)
    (w : World) (targ : Option Nat) : World :=
  if process_isRunning w then
    let w1 := worker_setActiveProcess w true
    let w2 := { w1 with isExecuting := true }
    let rid := match targ with
      | some tid => tid
      | none => w2.mainThread.getD 0
    let w3 := thread_resume resume w2 rid
    let w4 := { w3 with isExecuting := false }
    let w5 := _process_handleTimerResult w4 e
    let w6 := worker_setActiveProcess w5 false
    _process_check w6
  else w

/-- `process_stop`: mark active, latch `isExecuting`, terminate and release
the main thread if present, clear the latch, account the CPU burst, clear
the active slot and run `_process_check`. -/
def process_stop (e : ℚ) (w : World) : World :=
  let w1 := worker_setActiveProcess w true
  let w2 := { w1 with isExecuting := true }
  let w3 := match w2.mainThread with
    | some tid =>
      let a := thread_terminate w2 tid
      let b := thread_unref a tid
      { b with mainThread := none }
    | none => w2
  let w4 := { w3 with isExecuting := false }
  let w5 := _process_handleTimerResult w4 e
  let w6 := worker_setActiveProcess w5 false
  _process_check w6

/-- `process_ref`: take a reference on the process. -/
def process_ref (w : World) : World :=
  let w1 := emit w Ev.refProcess
  { w1 with procRefCount := w1.procRefCount + 1 }

/-- `_process_free`: terminate the main thread if it is still running and
release it, free argv/envv, unref the host, close the stdout/stderr file
descriptors when they were opened, and free the process. -/
def _process_free (w : World) : World :=
  let w1 := match w.mainThread with
    | some tid =>
      let a := match lookupThread w tid with
        | some t => if t.running then thread_terminate w tid else w
        | none => w
      let b := thread_unref a tid
      { b with mainThread := none }
    | none => w
  let w2 := if w1.argvPresent then
      let a := emit w1 Ev.freeArgv
      { a with argvPresent := false }
    else w1
  let w3 := if w2.envvPresent then
      let a := emit w2 Ev.freeEnvv
      { a with envvPresent := false }
    else w2
  let w4 := emit w3 Ev.unrefHost
  let w5 := if 0 ≤ w4.stderrFD then emit w4 (Ev.closeFD w4.stderrFD) else w4
  let w6 := if 0 ≤ w5.stdoutFD then emit w5 (Ev.closeFD w5.stdoutFD) else w5
  let w7 := emit w6 Ev.freeProcess
  { w7 with procFreed := true }

/-- `process_unref`: drop a reference; `utility_assert` that the count stays
nonnegative (abort otherwise) and invoke `_process_free` when it reaches
zero. -/
def process_unref (w : World) : World :=
  let w1 := emit w Ev.unrefProcess
  let w2 := { w1 with procRefCount := w1.procRefCount - 1 }
  if w2.procRefCount < 0 then { w2 with aborted := true }
  else if w2.procRefCount = 0 then _process_free w2
  else w2

/-- `task_free`: the free callback of a scheduler task releases the process
reference the task owns. -/
def task_free (t : TaskSt) (w : World) : World :=
  if t.holdsProcRef then process_unref w else w

/-- `process_schedule`: read the current virtual time and post up to two
tasks: a start task when `stopTime == 0 || startTime < stopTime` with delay
1 if the start is already due and `startTime - now` otherwise, and a stop
task when `stopTime > 0 && stopTime > startTime` with the analogous delay;
each posted task takes one process reference. -/
def process_schedule (now : Nat) (w : World) : World :=
  let w1 :=
    if w.stopTime = 0 ∨ w.startTime < w.stopTime then
      let d := if w.startTime ≤ now then 1 else w.startTime - now
      let a := process_ref w
      let b := emit a (Ev.postTask true d)
      { b with tasks := b.tasks ++ [⟨true, d, true⟩] }
    else w
  if 0 < w1.stopTime ∧ w1.startTime < w1.stopTime then
    let d := if w1.stopTime ≤ now then 1 else w1.stopTime - now
    let a := process_ref w1
    let b := emit a (Ev.postTask false d)
    { b with tasks := b.tasks ++ [⟨false, d, true⟩] }
  else w1

/-- `_process_start`: no-op when already running; open the stdout and stderr
files (a failed open is fatal), assert that no main thread exists yet,
create the main thread with the next thread id, mark the process active,
latch `isExecuting`, run the thread, account the CPU burst, clear the
active slot and run `_process_check`.  The open results are the oracle file
descriptors `fdOut`/`fdErr`; the guest's behaviour is the oracle `run`. -/
def _process_start (run : ThreadSt → ThreadSt) (fdOut fdErr : Int) (e : ℚ)
    (w : World) : World :=
  if process_isRunning w then w
  else
    let a := { w with stdoutFD := fdOut }
    if fdOut < 0 then { a with aborted := true }
    else
      let b := { a with stderrFD := fdErr }
      if fdErr < 0 then { b with aborted := true }
      else
        match b.mainThread with
        | some _ => { b with aborted := true }
        | none =>
          let tid := b.threadIDCounter
          let c := { b with threadIDCounter := b.threadIDCounter + 1,
                            mainThread := some tid,
                            threads := b.threads ++ [(tid, ⟨false, 0, 1⟩)] }
          let w1 := worker_setActiveProcess c true
          let w2 := { w1 with isExecuting := true }
          let w3 := thread_run run w2 tid
          let w4 := _process_handleTimerResult w3 e
          let w5 := worker_setActiveProcess w4 false
          _process_check w5

/-- `_process_runStartTask`: the start task callback. -/
def _process_runStartTask (run : ThreadSt → ThreadSt) (fdOut fdErr : Int)
    (e : ℚ) (w : World) : World :=
  _process_start run fdOut fdErr e w

/-- `_process_runStopTask`: the stop task callback. -/
def _process_runStopTask (e : ℚ) (w : World) : World :=
  process_stop e w

/-- `_process_unrefWaiter`: drop a waiter reference; `utility_assert` that
the count stays nonnegative; at zero, unref the thread, the timer and the
descriptor the waiter holds and free the waiter. -/
def _process_unrefWaiter (w : World) : World :=
  match w.waiter with
  | none => w
  | some wt =>
    let wt1 := { wt with refCount := wt.refCount - 1 }
    if wt1.refCount < 0 then { w with waiter := some wt1, aborted := true }
    else if wt1.refCount = 0 then
      let a := match wt1.thread with
        | some tid => thread_unref w tid
        | none => w
      let b := match wt1.timer with
        | some t => descriptor_unref a t
        | none => a
      let c := match wt1.descriptor with
        | some d => descriptor_unref b d
        | none => b
      let c1 := emit c Ev.freeWaiter
      { c1 with waiter := some { wt1 with freed := true } }
    else { w with waiter := some wt1 }

/-- Mark the listener on the given side of the waiter as freed. -/
def markListenerFreed (s : LSide) (w : World) : World :=
  match w.waiter with
  | none => w
  | some wt =>
    match s with
    | LSide.timer =>
      let l := wt.timerListener.map (fun l => { l with freed := true })
      { w with waiter := some { wt with timerListener := l } }
    | LSide.desc =>
      let l := wt.descListener.map (fun l => { l with freed := true })
      { w with waiter := some { wt with descListener := l } }

/-- Modelled from the spec: `descriptorlistener_unref` on a listener holding
its last reference frees it, which releases the process reference and the
waiter reference the listener holds (descriptor_listener.c is not among the
sources). -/
def descriptorlistener_unref (s : LSide) (w : World) : World :=
  let w1 := emit w (Ev.unrefListener s)
  let w2 := markListenerFreed s w1
  let w3 := process_unref w2
  _process_unrefWaiter w3

/-- `_process_notifyStatusChanged`: remove and disable the timer listener,
remove and disable the descriptor listener, continue the process with the
waiter's thread, then unref both listeners (which cascades into the final
waiter unref).  `notifyCount` instruments the number of invocations. -/
def _process_notifyStatusChanged (resume : ThreadSt → ThreadSt) (e : ℚ)
    (w : World) : World :=
  match w.waiter with
  | none => w
  | some wt =>
    let w0 := { w with notifyCount := w.notifyCount + 1 }
    let p1 :=
      if wt.timer.isSome ∧ wt.timerListener.isSome then
        let l := wt.timerListener.map
          (fun l => { l with monitorStatus := DS_NONE, edge := EdgeMode.never })
        (emits w0 [Ev.removeListener LSide.timer,
                   Ev.setMonitor LSide.timer DS_NONE EdgeMode.never],
         { wt with timerAttached := false, timerListener := l })
      else (w0, wt)
    let w1 := p1.1
    let wt1 := p1.2
    let p2 :=
      if wt1.descriptor.isSome ∧ wt1.descListener.isSome then
        let l := wt1.descListener.map
          (fun l => { l with monitorStatus := DS_NONE, edge := EdgeMode.never })
        (emits w1 [Ev.removeListener LSide.desc,
                   Ev.setMonitor LSide.desc DS_NONE EdgeMode.never],
         { wt1 with descAttached := false, descListener := l })
      else (w1, wt1)
    let w2 := p2.1
    let wt2 := p2.2
    let w3 := { w2 with waiter := some wt2 }
    let w4 := process_continue resume e w3 wt2.thread
    let w5 := if wt2.timerListener.isSome then descriptorlistener_unref LSide.timer w4 else w4
    if wt2.descListener.isSome then descriptorlistener_unref LSide.desc w5 else w5

/-- `process_listenForStatus`: no-op when neither a timeout nor a descriptor
is supplied; otherwise build a waiter holding references to the thread, the
timer and the descriptor as supplied, and for each present side create a
listener (which takes a process reference and a waiter reference), set its
monitor mask — `DS_READABLE` on the timer, the caller's `status` on the
descriptor, both edge OFF-to-ON — and attach it. -/
def process_listenForStatus (w : World) (thread timeout descriptor : Option Nat)
    (status : Nat) : World :=
  if timeout = none ∧ descriptor = none then w
  else
    let wt0 : WaiterSt :=
      { thread := thread, timer := timeout, timerListener := none,
        timerAttached := false, descriptor := descriptor, descListener := none,
        descAttached := false, refCount := 0, freed := false }
    let w1 := match thread with
      | some tid => thread_ref w tid
      | none => w
    let w2 := match timeout with
      | some t => descriptor_ref w1 t
      | none => w1
    let w3 := match descriptor with
      | some d => descriptor_ref w2 d
      | none => w2
    let p1 :=
      match timeout with
      | some _ =>
        let a := process_ref w3
        let b := emits a [Ev.setMonitor LSide.timer DS_READABLE EdgeMode.offToOn,
                          Ev.addListener LSide.timer]
        (b, { wt0 with timerListener := some ⟨DS_READABLE, EdgeMode.offToOn, false⟩,
                       timerAttached := true, refCount := wt0.refCount + 1 })
      | none => (w3, wt0)
    let w4 := p1.1
    let wt1 := p1.2
    let p2 :=
      match descriptor with
      | some _ =>
        let a := process_ref w4
        let b := emits a [Ev.setMonitor LSide.desc status EdgeMode.offToOn,
                          Ev.addListener LSide.desc]
        (b, { wt1 with descListener := some ⟨status, EdgeMode.offToOn, false⟩,
                       descAttached := true, refCount := wt1.refCount + 1 })
      | none => (w4, wt1)
    let w5 := p2.1
    let wt2 := p2.2
    { w5 with waiter := some wt2 }

/-- A readiness event of the descriptor layer: the target descriptor and the
status bits that transitioned OFF to ON on it. -/
structure Ready where
  target : Nat
  mask : Nat
deriving DecidableEq, Repr

/-- Modelled from the spec: a listener fires when the status it monitors
transitions according to its edge mode while it is attached; a detached or
disabled listener never fires. -/
def listenerWouldFire (target mask : Nat) (attached : Bool) (obj : Option Nat)
    (lst : Option ListenerSt) : Bool :=
  attached && obj == some target &&
    (match lst with
     | some l => (l.edge == EdgeMode.offToOn) && (mask &&& l.monitorStatus != 0)
     | none => false)

/-- Modelled from the spec: synchronous delivery of one readiness event by
the event loop — each of the waiter's listeners fires (invoking
`_process_notifyStatusChanged`) exactly when it is attached, enabled, and
monitoring a bit of the transition. -/
def deliverOne (resume : ThreadSt → ThreadSt) (e : ℚ) (ev : Ready)
    (w : World) : World :=
  let w1 := match w.waiter with
    | some wt =>
      if listenerWouldFire ev.target ev.mask wt.timerAttached wt.timer wt.timerListener
      then _process_notifyStatusChanged resume e w
      else w
    | none => w
  match w1.waiter with
  | some wt =>
    if listenerWouldFire ev.target ev.mask wt.descAttached wt.descriptor wt.descListener
    then _process_notifyStatusChanged resume e w1
    else w1
  | none => w1

/-- Deliver a sequence of readiness events in order. -/
def deliverAll (resume : ThreadSt → ThreadSt) (e : ℚ) (evs : List Ready)
    (w : World) : World :=
  evs.foldl (fun w ev => deliverOne resume e ev w) w

/-- An event matches the armed waiter when it targets the timer with a
readable transition, or the descriptor with a transition of the requested
status. -/
def eventMatchesArmed (t d status : Nat) (ev : Ready) : Bool :=
  (ev.target == t && (ev.mask &&& DS_READABLE != 0))
    || (ev.target == d && (ev.mask &&& status != 0))

/-- After `_process_notifyStatusChanged` has fired, no readiness event can
reach the waiter again: delivery of any event leaves the world unchanged. -/
def waiterInert (w : World) : Prop :=
  ∀ (resume : ThreadSt → ThreadSt) (e : ℚ) (ev : Ready),
    deliverOne resume e ev w = w

/-- Oracle that leaves the guest thread unchanged (guest yields again). -/
def idResume : ThreadSt → ThreadSt := fun t => t

/-- Oracle under which the guest exits immediately with code 0. -/
def exitResume : ThreadSt → ThreadSt := fun t => { t with running := false }

/-- Oracle under which the guest exits immediately with code 7. -/
def exitResume7 : ThreadSt → ThreadSt :=
  fun t => { t with running := false, returnCode := 7 }

/-- A freshly constructed process (`process_new` state): one reference, no
thread, no files opened, nothing logged. -/
def wBase : World :=
  { threads := [], mainThread := none, threadIDCounter := 0,
    procName := "host1.test.1000", procRefCount := 1, procFreed := false,
    isExecuting := false, totalRunTime := 0, didLogReturnCode := false,
    startTime := 0, stopTime := 0, stdoutFD := -1, stderrFD := -1,
    argvPresent := true, envvPresent := true, hostCpuDelay := 0,
    trackerTime := 0, activeProc := false, pluginErrors := 0, waiter := none,
    notifyCount := 0, tasks := [], returnLog := [], trace := [],
    aborted := false }

/-- `wBase` with a running main thread of id 0. -/
def wRunning : World :=
  { wBase with threads := [(0, ⟨true, 0, 1⟩)], mainThread := some 0 }

/-- The waiter state `process_listenForStatus` arms when both a timer `t`
and a descriptor `d` are supplied: both listeners installed and attached,
the timer listener monitoring `DS_READABLE` and the descriptor listener
monitoring `status`, both edge OFF-to-ON, and two references held (one per
listener). -/
def armedWaiter (th : Option Nat) (t d status : Nat) (wt : WaiterSt) : Prop :=
  wt.thread = th ∧ wt.timer = some t
    ∧ wt.timerListener = some ⟨DS_READABLE, EdgeMode.offToOn, false⟩
    ∧ wt.timerAttached = true
    ∧ wt.descriptor = some d
    ∧ wt.descListener = some ⟨status, EdgeMode.offToOn, false⟩
    ∧ wt.descAttached = true
    ∧ wt.refCount = 2 ∧ wt.freed = false

/-- Both of the waiter's listeners have been removed from their targets. -/
def waiterDetached (w : World) : Prop :=
  ∃ wt, w.waiter = some wt
    ∧ wt.timerAttached = false ∧ wt.descAttached = false

theorem logReturnCode_waiter (w : World) (c : Int) :
    (_process_logReturnCode w c).waiter = w.waiter := by
  unfold _process_logReturnCode
  split <;> rfl

theorem logReturnCode_notifyCount (w : World) (c : Int) :
    (_process_logReturnCode w c).notifyCount = w.notifyCount := by
  unfold _process_logReturnCode
  split <;> rfl

theorem logReturnCode_procRefCount (w : World) (c : Int) :
    (_process_logReturnCode w c).procRefCount = w.procRefCount := by
  unfold _process_logReturnCode
  split <;> rfl

theorem check_waiter (w : World) : (_process_check w).waiter = w.waiter := by
  unfold _process_check
  split
  · rfl
  · split
    · rfl
    · split
      · rfl
      · simp [thread_terminate, thread_unref, emit, logReturnCode_waiter]

theorem check_notifyCount (w : World) :
    (_process_check w).notifyCount = w.notifyCount := by
  unfold _process_check
  split
  · rfl
  · split
    · rfl
    · split
      · rfl
      · simp [thread_terminate, thread_unref, emit, logReturnCode_notifyCount]

theorem check_procRefCount (w : World) :
    (_process_check w).procRefCount = w.procRefCount := by
  unfold _process_check
  split
  · rfl
  · split
    · rfl
    · split
      · rfl
      · simp [thread_terminate, thread_unref, emit, logReturnCode_procRefCount]

theorem continue_waiter (resume : ThreadSt → ThreadSt) (e : ℚ) (w : World)
    (targ : Option Nat) :
    (process_continue resume e w targ).waiter = w.waiter := by
  unfold process_continue
  split
  · simp [check_waiter, _process_handleTimerResult, worker_setActiveProcess,
      thread_resume, emit]
  · rfl

theorem continue_notifyCount (resume : ThreadSt → ThreadSt) (e : ℚ) (w : World)
    (targ : Option Nat) :
    (process_continue resume e w targ).notifyCount = w.notifyCount := by
  unfold process_continue
  split
  · simp [check_notifyCount, _process_handleTimerResult, worker_setActiveProcess,
      thread_resume, emit]
  · rfl

theorem continue_procRefCount (resume : ThreadSt → ThreadSt) (e : ℚ) (w : World)
    (targ : Option Nat) :
    (process_continue resume e w targ).procRefCount = w.procRefCount := by
  unfold process_continue
  split
  · simp [check_procRefCount, _process_handleTimerResult, worker_setActiveProcess,
      thread_resume, emit]
  · rfl

theorem check_mainThread_none (w : World) (h : w.mainThread = none) :
    _process_check w = w := by
  unfold _process_check
  rw [h]

theorem mem_check_trace (w : World) (ev : Ev) (h : ev ∈ w.trace) :
    ev ∈ (_process_check w).trace := by
  unfold _process_check _process_logReturnCode
  split
  · exact h
  · split
    · exact h
    · split
      · exact h
      · split <;>
          simp only [thread_terminate, thread_unref, emit, List.mem_append] <;>
          tauto

/-- Claim C8: when the process is not running, `process_continue` is a
no-op returning the state unchanged (so `totalRunTime`, the host CPU delay,
the active-process slot, `isExecuting` and `mainThread` are all untouched
and no thread is resumed); when it is running and the thread argument is
null, it resumes `mainThread`. -/
theorem c8_continue_noop (resume : ThreadSt → ThreadSt) (e : ℚ) (w : World)
    (targ : Option Nat) (mid : Nat) :
    (process_isRunning w = false → process_continue resume e w targ = w)
    ∧ (process_isRunning w = true → w.mainThread = some mid →
        Ev.resumeThread mid ∈ (process_continue resume e w none).trace) := by
  constructor
  · intro h
    unfold process_continue
    rw [if_neg]
    simp [h]
  · intro hr hm
    unfold process_continue
    rw [if_pos (by simp [hr])]
    apply mem_check_trace
    simp [worker_setActiveProcess, thread_resume, emit,
      _process_handleTimerResult, hm, List.mem_append]

/-- Witness for C8 at a concrete input: a process whose main thread has
exited is not running, and `process_continue` then returns the world
unchanged; a running process with a null thread argument gets its main
thread (id 0) resumed. -/
theorem c8_continue_noop_witness :
    (process_continue idResume 1 { wBase with threads := [(0, ⟨false, 0, 1⟩)], mainThread := some 0 } none
      = { wBase with threads := [(0, ⟨false, 0, 1⟩)], mainThread := some 0 })
    ∧ Ev.resumeThread 0 ∈ (process_continue idResume 1 wRunning none).trace := by
  constructor
  · exact (c8_continue_noop idResume 1 { wBase with threads := [(0, ⟨false, 0, 1⟩)], mainThread := some 0 } none 0).1 (by decide)
  · exact (c8_continue_noop idResume 1 wRunning none 0).2 (by decide) (by decide)

/-- Claim C10: after `process_stop` returns, `mainThread` is null —
whatever the prior state — and therefore `process_isRunning` is false. -/
theorem c10_stop_clears_mainThread (e : ℚ) (w : World) :
    (process_stop e w).mainThread = none
    ∧ process_isRunning (process_stop e w) = false := by
  have hmt : (process_stop e w).mainThread = none := by
    unfold process_stop
    cases hm : w.mainThread with
    | none =>
      rw [check_mainThread_none]
      · simp [worker_setActiveProcess, emit, _process_handleTimerResult, hm]
      · simp [worker_setActiveProcess, emit, _process_handleTimerResult, hm]
    | some tid =>
      rw [check_mainThread_none]
      · simp [worker_setActiveProcess, emit, _process_handleTimerResult,
          thread_terminate, thread_unref, hm]
      · simp [worker_setActiveProcess, emit, _process_handleTimerResult,
          thread_terminate, thread_unref, hm]
  refine ⟨hmt, ?_⟩
  unfold process_isRunning
  rw [hmt]

theorem dueDelay (s now : Nat) :
    (if s ≤ now then 1 else s - now) = max 1 (s - now) := by
  rcases le_or_lt s now with h | h
  · simp [h, Nat.sub_eq_zero_of_le h]
  · rw [if_neg (by omega)]
    exact (Nat.max_eq_right (by omega)).symm

/-- Claim C5: `process_schedule` posts a start task exactly when
`stopTime == 0` or `startTime < stopTime`, with delay
`max 1 (startTime - now)` (so a start due at or before `now` gets delay 1,
never 0), and a stop task exactly when `stopTime > 0` and
`stopTime > startTime`, with delay `max 1 (stopTime - now)`; the process
reference count grows by one per posted task, every posted task holds a
process reference, and freeing a task that holds one releases it through
`process_unref`. -/
theorem c5_schedule (now : Nat) (w : World) :
    ((process_schedule now w).tasks = w.tasks
      ++ (if w.stopTime = 0 ∨ w.startTime < w.stopTime then
            [⟨true, max 1 (w.startTime - now), true⟩] else [])
      ++ (if 0 < w.stopTime ∧ w.startTime < w.stopTime then
            [⟨false, max 1 (w.stopTime - now), true⟩] else []))
    ∧ ((process_schedule now w).procRefCount = w.procRefCount
        + (if w.stopTime = 0 ∨ w.startTime < w.stopTime then 1 else 0)
        + (if 0 < w.stopTime ∧ w.startTime < w.stopTime then 1 else 0))
    ∧ (∀ t ∈ ((process_schedule now w).tasks).drop w.tasks.length,
        t.holdsProcRef = true)
    ∧ (∀ t : TaskSt, t.holdsProcRef = true → ∀ v : World,
        task_free t v = process_unref v) := by
  have htasks : (process_schedule now w).tasks = w.tasks
      ++ (if w.stopTime = 0 ∨ w.startTime < w.stopTime then
            [⟨true, max 1 (w.startTime - now), true⟩] else [])
      ++ (if 0 < w.stopTime ∧ w.startTime < w.stopTime then
            [⟨false, max 1 (w.stopTime - now), true⟩] else []) := by
    by_cases h1 : w.stopTime = 0 ∨ w.startTime < w.stopTime <;>
      by_cases h2 : 0 < w.stopTime ∧ w.startTime < w.stopTime <;>
        simp [process_schedule, process_ref, emit, h1, h2, ← dueDelay]
  have hrc : (process_schedule now w).procRefCount = w.procRefCount
      + (if w.stopTime = 0 ∨ w.startTime < w.stopTime then 1 else 0)
      + (if 0 < w.stopTime ∧ w.startTime < w.stopTime then 1 else 0) := by
    by_cases h1 : w.stopTime = 0 ∨ w.startTime < w.stopTime <;>
      by_cases h2 : 0 < w.stopTime ∧ w.startTime < w.stopTime <;>
        simp [process_schedule, process_ref, emit, h1, h2]
  refine ⟨htasks, hrc, ?_, ?_⟩
  · intro t ht
    rw [htasks, List.append_assoc, List.drop_left] at ht
    rcases List.mem_append.1 ht with hs | hs <;>
      · split at hs <;> simp_all
  · intro t ht v
    simp [task_free, ht]

/-- Claim C7: on the first observation of thread termination `_process_check`
emits exactly one return-code line — `main success code '0' for process
'<name>'` when the exit code is 0, `main error code '<n>' for process
'<name>'` otherwise — increments the global plugin-error counter exactly
when the code is nonzero, clears `mainThread`, and any later invocation of
the check or of the return-code logger emits nothing and increments
nothing. -/
theorem c7_log_once (w : World) (tid : Nat) (t : ThreadSt)
    (hmt : w.mainThread = some tid) (hlk : lookupThread w tid = some t)
    (hrun : t.running = false) (hdl : w.didLogReturnCode = false) :
    ((_process_check w).returnLog
        = w.returnLog ++ [retCodeLine t.returnCode w.procName])
    ∧ (t.returnCode = 0 →
        retCodeLine t.returnCode w.procName
          = "main success code '0' for process '" ++ w.procName ++ "'")
    ∧ (t.returnCode ≠ 0 →
        retCodeLine t.returnCode w.procName
          = "main error code '" ++ toString t.returnCode
              ++ "' for process '" ++ w.procName ++ "'")
    ∧ ((_process_check w).pluginErrors
        = w.pluginErrors + (if t.returnCode = 0 then 0 else 1))
    ∧ (_process_check w).didLogReturnCode = true
    ∧ (_process_check w).mainThread = none
    ∧ _process_check (_process_check w) = _process_check w
    ∧ (∀ c : Int, _process_logReturnCode (_process_check w) c = _process_check w) := by
  have hred : _process_check w
      = { thread_unref (thread_terminate (_process_logReturnCode w t.returnCode) tid) tid
            with mainThread := none } := by
    simp only [_process_check, hmt, hlk, hrun]
    rfl
  have hdid : (_process_check w).didLogReturnCode = true := by
    rw [hred]
    simp [thread_unref, thread_terminate, _process_logReturnCode, hdl, emit]
  refine ⟨?_, ?_, ?_, ?_, hdid, ?_, ?_, ?_⟩
  · rw [hred]
    simp [thread_unref, thread_terminate, _process_logReturnCode, hdl, emit]
  · intro h0
    rw [h0]
    rfl
  · intro hc
    unfold retCodeLine
    rw [if_neg hc]
    rfl
  · rw [hred]
    simp [thread_unref, thread_terminate, _process_logReturnCode, hdl, emit]
  · rw [hred]
  · apply check_mainThread_none
    rw [hred]
  · intro c
    unfold _process_logReturnCode
    rw [if_pos hdid]

/-- Witness for C7 at a concrete input: a main thread that exited with code
7 gets exactly one error line logged, the plugin-error counter goes from 0
to 1, and a second check changes nothing. -/
theorem c7_log_once_witness :
    ((_process_check { wBase with threads := [(0, ⟨false, 7, 1⟩)], mainThread := some 0 }).returnLog
        = ({ wBase with threads := [(0, ⟨false, 7, 1⟩)], mainThread := some 0 } : World).returnLog
          ++ [retCodeLine 7 "host1.test.1000"])
    ∧ ((_process_check { wBase with threads := [(0, ⟨false, 7, 1⟩)], mainThread := some 0 }).pluginErrors
        = ({ wBase with threads := [(0, ⟨false, 7, 1⟩)], mainThread := some 0 } : World).pluginErrors
          + (if (7 : Int) = 0 then 0 else 1))
    ∧ _process_check (_process_check { wBase with threads := [(0, ⟨false, 7, 1⟩)], mainThread := some 0 })
        = _process_check { wBase with threads := [(0, ⟨false, 7, 1⟩)], mainThread := some 0 } :=
  ⟨(c7_log_once { wBase with threads := [(0, ⟨false, 7, 1⟩)], mainThread := some 0 }
      0 ⟨false, 7, 1⟩ (by decide) (by decide) (by decide) (by decide)).1,
   (c7_log_once { wBase with threads := [(0, ⟨false, 7, 1⟩)], mainThread := some 0 }
      0 ⟨false, 7, 1⟩ (by decide) (by decide) (by decide) (by decide)).2.2.2.1,
   (c7_log_once { wBase with threads := [(0, ⟨false, 7, 1⟩)], mainThread := some 0 }
      0 ⟨false, 7, 1⟩ (by decide) (by decide) (by decide) (by decide)).2.2.2.2.2.2.1⟩

/-- Counterexample to C9 as stated: with the main thread already gone,
`process_stop` is not a pure no-op — at a concrete input with a measured
elapsed time of one second the `totalRunTime` accumulator changes, so the
process state is not left unchanged. -/
theorem c9_stop_counterexample :
    (process_stop 1 wBase).totalRunTime = 1 ∧ wBase.totalRunTime = 0
    ∧ process_stop 1 wBase ≠ wBase := by
  refine ⟨?_, rfl, ?_⟩
  · simp [process_stop, wBase, worker_setActiveProcess, emit,
      _process_handleTimerResult, _process_check]
  · intro h
    have := congrArg World.totalRunTime h
    simp [process_stop, wBase, worker_setActiveProcess, emit,
      _process_handleTimerResult, _process_check] at this

/-- Claim C9 (amended): when the guest has already exited (`mainThread` is
null) by the time the stop task fires, `process_stop` terminates no thread
and leaves `mainThread` null and the thread heap untouched — its only
effects are toggling the active-process slot (emitting exactly the two
set-active events), the CPU accounting of the measured elapsed time, and
logging. -/
theorem c9_stop_already_exited (e : ℚ) (w : World) (h : w.mainThread = none) :
    (process_stop e w).mainThread = none
    ∧ (process_stop e w).trace = w.trace ++ [Ev.setActive true, Ev.setActive false]
    ∧ (process_stop e w).threads = w.threads
    ∧ (process_stop e w).totalRunTime = w.totalRunTime + e
    ∧ (process_stop e w).hostCpuDelay = w.hostCpuDelay + simDelay e
    ∧ (process_stop e w).isExecuting = false
    ∧ (process_stop e w).activeProc = false := by
  have hstop : process_stop e w
      = _process_check
          { w with trace := w.trace ++ [Ev.setActive true] ++ [Ev.setActive false],
                   activeProc := false, isExecuting := false,
                   hostCpuDelay := w.hostCpuDelay + simDelay e,
                   trackerTime := w.trackerTime + simDelay e,
                   totalRunTime := w.totalRunTime + e } := by
    unfold process_stop
    simp only [worker_setActiveProcess, emit, _process_handleTimerResult, h]
  have hstop2 : process_stop e w
      = { w with trace := w.trace ++ [Ev.setActive true] ++ [Ev.setActive false],
                 activeProc := false, isExecuting := false,
                 hostCpuDelay := w.hostCpuDelay + simDelay e,
                 trackerTime := w.trackerTime + simDelay e,
                 totalRunTime := w.totalRunTime + e } :=
    hstop.trans (check_mainThread_none _ h)
  rw [hstop2]
  simp [List.append_assoc, h]

/-- Witness for C9 (amended) at a concrete input: stopping `wBase` (no main
thread) with a measured elapsed time of 2 terminates nothing and adds 2 to
`totalRunTime`. -/
theorem c9_stop_already_exited_witness :
    (process_stop 2 wBase).mainThread = none
    ∧ (process_stop 2 wBase).threads = wBase.threads
    ∧ (process_stop 2 wBase).totalRunTime = wBase.totalRunTime + 2 :=
  ⟨(c9_stop_already_exited 2 wBase rfl).1,
   (c9_stop_already_exited 2 wBase rfl).2.2.1,
   (c9_stop_already_exited 2 wBase rfl).2.2.2.1⟩

/-- Witness for C5 at a concrete input: `now = 100`, `startTime = 300`,
`stopTime = 700` posts a start task at delay 200 and a stop task at delay
600, both holding a process reference, and freeing such a task releases the
reference through `process_unref`. -/
theorem c5_schedule_witness :
    (process_schedule 100 { wBase with startTime := 300, stopTime := 700 }).tasks
      = [⟨true, 200, true⟩, ⟨false, 600, true⟩]
    ∧ (process_schedule 100 { wBase with startTime := 300, stopTime := 700 }).procRefCount = 3
    ∧ task_free ⟨true, 200, true⟩ wBase = process_unref wBase :=
  ⟨(c5_schedule 100 { wBase with startTime := 300, stopTime := 700 }).1,
   (c5_schedule 100 { wBase with startTime := 300, stopTime := 700 }).2.1,
   (c5_schedule 100 { wBase with startTime := 300, stopTime := 700 }).2.2.2
     ⟨true, 200, true⟩ rfl wBase⟩


theorem free_reduce (v : World) (tid : Nat) (t : ThreadSt)
    (hmt : v.mainThread = some tid) (hlk : lookupThread v tid = some t)
    (hrun : t.running = true) (hargv : v.argvPresent = true)
    (henvv : v.envvPresent = true) :
    (_process_free v).aborted = v.aborted
    ∧ (_process_free v).procFreed = true
    ∧ (_process_free v).mainThread = none
    ∧ (_process_free v).procRefCount = v.procRefCount
    ∧ (_process_free v).trace = v.trace
        ++ [Ev.terminateThread tid, Ev.unrefThread tid, Ev.freeArgv,
            Ev.freeEnvv, Ev.unrefHost]
        ++ (if 0 ≤ v.stderrFD then [Ev.closeFD v.stderrFD] else [])
        ++ (if 0 ≤ v.stdoutFD then [Ev.closeFD v.stdoutFD] else [])
        ++ [Ev.freeProcess] := by
  by_cases herr : 0 ≤ v.stderrFD <;> by_cases hout : 0 ≤ v.stdoutFD <;>
    simp [_process_free, emit, thread_terminate, thread_unref, hmt, hlk, hrun,
      hargv, henvv, herr, hout, List.append_assoc]

/-- Claim C4: `process_unref` keeps the reference count nonnegative (the
assert aborts exactly when an unref would drive it below zero), invokes the
free routine exactly when the count reaches zero, and the free routine —
here with `mainThread` present and still running — first terminates and
releases the thread, frees argv and envv, unrefs the host, and closes the
stdout/stderr descriptors exactly when they were opened (skipping them
while they are still -1). -/
theorem c4_unref_free (w : World) (tid : Nat) (t : ThreadSt)
    (h0 : 0 ≤ w.procRefCount) (hab : w.aborted = false)
    (hfr : w.procFreed = false) (hmt : w.mainThread = some tid)
    (hlk : lookupThread w tid = some t) (hrun : t.running = true)
    (hargv : w.argvPresent = true) (henvv : w.envvPresent = true) :
    (((process_unref w).aborted = true) ↔ w.procRefCount = 0)
    ∧ (0 < w.procRefCount →
        (process_unref w).procRefCount = w.procRefCount - 1
        ∧ 0 ≤ (process_unref w).procRefCount)
    ∧ ((process_unref w).procFreed = true ↔ w.procRefCount = 1)
    ∧ (w.procRefCount = 1 →
        (process_unref w).mainThread = none
        ∧ (process_unref w).trace = w.trace
            ++ [Ev.unrefProcess, Ev.terminateThread tid, Ev.unrefThread tid,
                Ev.freeArgv, Ev.freeEnvv, Ev.unrefHost]
            ++ (if 0 ≤ w.stderrFD then [Ev.closeFD w.stderrFD] else [])
            ++ (if 0 ≤ w.stdoutFD then [Ev.closeFD w.stdoutFD] else [])
            ++ [Ev.freeProcess]) := by
  rcases lt_trichotomy w.procRefCount 1 with hlt | heq | hgt
  · have h00 : w.procRefCount = 0 := by omega
    have hcomp0 : process_unref w
        = { w with procRefCount := w.procRefCount - 1,
                   trace := w.trace ++ [Ev.unrefProcess], aborted := true } := by
      unfold process_unref
      simp only [emit]
      rw [if_pos (by omega)]
    refine ⟨?_, ?_, ?_, ?_⟩
    · rw [hcomp0]
      simp [h00]
    · intro hpos
      omega
    · rw [hcomp0]
      simp [hfr]
      omega
    · intro h1
      omega
  · have hcomp : process_unref w
        = _process_free { w with procRefCount := w.procRefCount - 1,
                                 trace := w.trace ++ [Ev.unrefProcess] } := by
      unfold process_unref
      simp only [emit]
      rw [if_neg (by omega), if_pos (by omega)]
    have hfree := free_reduce
      { w with procRefCount := w.procRefCount - 1,
               trace := w.trace ++ [Ev.unrefProcess] } tid t hmt hlk hrun hargv henvv
    refine ⟨?_, ?_, ?_, ?_⟩
    · rw [hcomp, hfree.1]
      simp [hab]
      omega
    · intro _
      rw [hcomp]
      refine ⟨hfree.2.2.2.1, ?_⟩
      rw [hfree.2.2.2.1]
      show 0 ≤ w.procRefCount - 1
      omega
    · rw [hcomp, hfree.2.1]
      simp [heq]
    · intro _
      rw [hcomp]
      refine ⟨hfree.2.2.1, ?_⟩
      rw [hfree.2.2.2.2]
      simp [List.append_assoc]
  · have hcomp2 : process_unref w
        = { w with procRefCount := w.procRefCount - 1,
                   trace := w.trace ++ [Ev.unrefProcess] } := by
      unfold process_unref
      simp only [emit]
      rw [if_neg (by omega), if_neg (by omega)]
    refine ⟨?_, ?_, ?_, ?_⟩
    · rw [hcomp2]
      simp [hab]
      omega
    · intro _
      rw [hcomp2]
      exact ⟨rfl, by simp; omega⟩
    · rw [hcomp2]
      simp [hfr]
      omega
    · intro h1
      omega

/-- Witness for C4 at a concrete input: unreffing a process whose single
reference is dropped while its main thread (id 0) still runs frees it,
clears `mainThread`, and closes the opened stdout/stderr descriptors. -/
theorem c4_unref_free_witness :
    ((process_unref { wBase with threads := [(0, ⟨true, 0, 2⟩)], mainThread := some 0, stdoutFD := 5, stderrFD := 6 }).procFreed = true
      ↔ ({ wBase with threads := [(0, ⟨true, 0, 2⟩)], mainThread := some 0, stdoutFD := 5, stderrFD := 6 } : World).procRefCount = 1)
    ∧ (process_unref { wBase with threads := [(0, ⟨true, 0, 2⟩)], mainThread := some 0, stdoutFD := 5, stderrFD := 6 }).mainThread = none :=
  ⟨(c4_unref_free { wBase with threads := [(0, ⟨true, 0, 2⟩)], mainThread := some 0, stdoutFD := 5, stderrFD := 6 } 0 ⟨true, 0, 2⟩ (by decide) rfl rfl rfl (by decide) rfl rfl rfl).2.2.1,
   ((c4_unref_free { wBase with threads := [(0, ⟨true, 0, 2⟩)], mainThread := some 0, stdoutFD := 5, stderrFD := 6 } 0 ⟨true, 0, 2⟩ (by decide) rfl rfl rfl (by decide) rfl rfl rfl).2.2.2 rfl).1⟩


/-- Claim C3: `process_listenForStatus` returns immediately as a no-op when
both timeout and descriptor are null (no waiter allocated, no refcounts
changed — the state is unchanged); otherwise it creates one waiter and, for
each side present, installs one listener, each installed listener taking
exactly one waiter reference and one process reference, so afterwards the
waiter's refcount equals the number of sides supplied. -/
theorem c3_listen (w : World) (th : Option Nat) (t d : Option Nat) (status : Nat) :
    (t = none → d = none → process_listenForStatus w th t d status = w)
    ∧ (t.isSome ∨ d.isSome →
        ∃ wt : WaiterSt,
          (process_listenForStatus w th t d status).waiter = some wt
          ∧ (wt.refCount : Int)
              = (if t.isSome then 1 else 0) + (if d.isSome then 1 else 0)
          ∧ (process_listenForStatus w th t d status).procRefCount
              = w.procRefCount
                + (if t.isSome then 1 else 0) + (if d.isSome then 1 else 0)
          ∧ wt.thread = th ∧ wt.timer = t ∧ wt.descriptor = d
          ∧ wt.timerAttached = t.isSome ∧ wt.descAttached = d.isSome
          ∧ wt.timerListener.isSome = t.isSome
          ∧ wt.descListener.isSome = d.isSome
          ∧ wt.freed = false) := by
  constructor
  · intro ht hd
    subst ht hd
    simp [process_listenForStatus]
  · intro hsome
    cases t <;> cases d <;> cases th <;>
      first
        | (simp at hsome
           done)
        | simp [process_listenForStatus, process_ref, emit, emits, thread_ref,
            descriptor_ref, updateThread]

/-- Witness for C3 at a concrete input: arming with a timer (id 4) and a
descriptor (id 9) yields a waiter with refcount 2 and bumps the process
refcount from 1 to 3; arming with neither is the identity. -/
theorem c3_listen_witness :
    (process_listenForStatus wBase (some 0) none none 3 = wBase)
    ∧ (∃ wt : WaiterSt,
        (process_listenForStatus wBase (some 0) (some 4) (some 9) 2).waiter = some wt
        ∧ (wt.refCount : Int)
            = (if (some 4 : Option Nat).isSome then 1 else 0)
              + (if (some 9 : Option Nat).isSome then 1 else 0)
        ∧ (process_listenForStatus wBase (some 0) (some 4) (some 9) 2).procRefCount
            = wBase.procRefCount
              + (if (some 4 : Option Nat).isSome then 1 else 0)
              + (if (some 9 : Option Nat).isSome then 1 else 0)
        ∧ wt.thread = some 0 ∧ wt.timer = some 4 ∧ wt.descriptor = some 9
        ∧ wt.timerAttached = (some 4 : Option Nat).isSome
        ∧ wt.descAttached = (some 9 : Option Nat).isSome
        ∧ wt.timerListener.isSome = (some 4 : Option Nat).isSome
        ∧ wt.descListener.isSome = (some 9 : Option Nat).isSome
        ∧ wt.freed = false) :=
  ⟨(c3_listen wBase (some 0) none none 3).1 rfl rfl,
   (c3_listen wBase (some 0) (some 4) (some 9) 2).2 (Or.inl rfl)⟩

theorem free_waiter_notify (w : World) :
    (_process_free w).waiter = w.waiter
    ∧ (_process_free w).notifyCount = w.notifyCount := by
  cases hm : w.mainThread with
  | none =>
    by_cases ha : w.argvPresent <;> by_cases he : w.envvPresent <;>
      by_cases h5 : 0 ≤ w.stderrFD <;> by_cases h6 : 0 ≤ w.stdoutFD <;>
        simp [_process_free, emit, thread_terminate, thread_unref, hm, ha, he, h5, h6]
  | some tid =>
    cases hl : lookupThread w tid with
    | none =>
      by_cases ha : w.argvPresent <;> by_cases he : w.envvPresent <;>
        by_cases h5 : 0 ≤ w.stderrFD <;> by_cases h6 : 0 ≤ w.stdoutFD <;>
          simp [_process_free, emit, thread_terminate, thread_unref, hm, hl, ha, he, h5, h6]
    | some t =>
      by_cases hr : t.running <;>
        by_cases ha : w.argvPresent <;> by_cases he : w.envvPresent <;>
          by_cases h5 : 0 ≤ w.stderrFD <;> by_cases h6 : 0 ≤ w.stdoutFD <;>
            simp [_process_free, emit, thread_terminate, thread_unref, hm, hl, hr, ha, he, h5, h6]

theorem unref_waiter (w : World) : (process_unref w).waiter = w.waiter := by
  unfold process_unref
  simp only [emit]
  split_ifs
  · rfl
  · simp [(free_waiter_notify _).1]
  · rfl

theorem unref_notifyCount (w : World) :
    (process_unref w).notifyCount = w.notifyCount := by
  unfold process_unref
  simp only [emit]
  split_ifs
  · rfl
  · simp [(free_waiter_notify _).2]
  · rfl

theorem unrefWaiter_preserves (v : World) (u : WaiterSt) (hv : v.waiter = some u) :
    (_process_unrefWaiter v).notifyCount = v.notifyCount
    ∧ ∃ u', (_process_unrefWaiter v).waiter = some u'
        ∧ u'.timerAttached = u.timerAttached
        ∧ u'.descAttached = u.descAttached := by
  unfold _process_unrefWaiter
  simp only [hv]
  split_ifs with h1 h2
  · exact ⟨by trivial, _, rfl, rfl, rfl⟩
  · rcases hthr : u.thread with _ | tid <;> rcases htm : u.timer with _ | tt <;>
      rcases hds : u.descriptor with _ | dd <;>
        simp [hthr, htm, hds, thread_unref, descriptor_unref, emit,
          updateThread]
  · exact ⟨by trivial, _, rfl, rfl, rfl⟩

theorem mark_preserves (s : LSide) (v : World) (u : WaiterSt)
    (hv : v.waiter = some u) :
    (markListenerFreed s v).notifyCount = v.notifyCount
    ∧ ∃ u', (markListenerFreed s v).waiter = some u'
        ∧ u'.timerAttached = u.timerAttached
        ∧ u'.descAttached = u.descAttached := by
  cases s <;> simp only [markListenerFreed, hv] <;> exact ⟨by trivial, _, rfl, rfl, rfl⟩

theorem dlu_preserves (s : LSide) (v : World) (u : WaiterSt)
    (hv : v.waiter = some u) :
    (descriptorlistener_unref s v).notifyCount = v.notifyCount
    ∧ ∃ u', (descriptorlistener_unref s v).waiter = some u'
        ∧ u'.timerAttached = u.timerAttached
        ∧ u'.descAttached = u.descAttached := by
  unfold descriptorlistener_unref
  obtain ⟨hm1, u1, hm2, hm3, hm4⟩ :=
    mark_preserves s (emit v (Ev.unrefListener s)) u hv
  have h3w : (process_unref (markListenerFreed s (emit v (Ev.unrefListener s)))).waiter
      = some u1 := (unref_waiter _).trans hm2
  have h3n : (process_unref (markListenerFreed s (emit v (Ev.unrefListener s)))).notifyCount
      = v.notifyCount := (unref_notifyCount _).trans hm1
  obtain ⟨hn, u2, hw2, ha2, hb2⟩ := unrefWaiter_preserves _ u1 h3w
  exact ⟨hn.trans h3n, u2, hw2, ha2.trans hm3, hb2.trans hm4⟩

theorem notify_tail (r : ThreadSt → ThreadSt) (e : ℚ) (W : World) (WT : WaiterSt)
    (targ : Option Nat) (hW : W.waiter = some WT)
    (hta : WT.timerAttached = false) (hda : WT.descAttached = false) :
    (descriptorlistener_unref LSide.desc
        (descriptorlistener_unref LSide.timer
          (process_continue r e W targ))).notifyCount = W.notifyCount
    ∧ waiterDetached (descriptorlistener_unref LSide.desc
        (descriptorlistener_unref LSide.timer (process_continue r e W targ))) := by
  have h4w : (process_continue r e W targ).waiter = some WT :=
    (continue_waiter r e W targ).trans hW
  have h4n := continue_notifyCount r e W targ
  obtain ⟨hn1, u1, hw1, ha1, hb1⟩ := dlu_preserves LSide.timer _ WT h4w
  obtain ⟨hn2, u2, hw2, ha2, hb2⟩ := dlu_preserves LSide.desc _ u1 hw1
  exact ⟨hn2.trans (hn1.trans h4n), u2, hw2,
    ha2.trans (ha1.trans hta), hb2.trans (hb1.trans hda)⟩
theorem notify_fires (r : ThreadSt → ThreadSt) (e : ℚ) (w : World) (wt : WaiterSt)
    (th : Option Nat) (t d status : Nat)
    (hw : w.waiter = some wt) (harm : armedWaiter th t d status wt) :
    (_process_notifyStatusChanged r e w).notifyCount = w.notifyCount + 1
    ∧ waiterDetached (_process_notifyStatusChanged r e w) := by
  obtain ⟨hth, htm, htl, hta, hds, hdl, hda, hrc, hfr⟩ := harm
  unfold _process_notifyStatusChanged
  simp only [hw, htm, htl, hds, hdl, Option.isSome_some, Option.map_some]
  exact ⟨(notify_tail r e _ _ _ rfl rfl rfl).1.trans rfl,
         (notify_tail r e _ _ _ rfl rfl rfl).2⟩

theorem wouldFire_armed_timer (ev : Ready) (wt : WaiterSt) (th : Option Nat)
    (t d status : Nat) (harm : armedWaiter th t d status wt) :
    listenerWouldFire ev.target ev.mask wt.timerAttached wt.timer wt.timerListener
      = (decide (ev.target = t) && decide (ev.mask &&& DS_READABLE ≠ 0)) := by
  obtain ⟨_, htm, htl, hta, _, _, _, _, _⟩ := harm
  simp [listenerWouldFire, htm, htl, hta, eq_comm, Bool.and_comm,
    decide_eq_true_eq]
  rw [Bool.eq_iff_iff]
  constructor <;> intro h <;> simp_all

theorem wouldFire_armed_desc (ev : Ready) (wt : WaiterSt) (th : Option Nat)
    (t d status : Nat) (harm : armedWaiter th t d status wt) :
    listenerWouldFire ev.target ev.mask wt.descAttached wt.descriptor wt.descListener
      = (decide (ev.target = d) && decide (ev.mask &&& status ≠ 0)) := by
  obtain ⟨_, _, _, _, hds, hdl, hda, _, _⟩ := harm
  simp [listenerWouldFire, hds, hdl, hda, eq_comm, Bool.and_comm,
    decide_eq_true_eq]
  rw [Bool.eq_iff_iff]
  constructor <;> intro h <;> simp_all

theorem matches_iff (t d status : Nat) (ev : Ready) :
    eventMatchesArmed t d status ev = true
      ↔ ((ev.target = t ∧ ev.mask &&& DS_READABLE ≠ 0)
          ∨ (ev.target = d ∧ ev.mask &&& status ≠ 0)) := by
  simp [eventMatchesArmed]

theorem inert_of_detached (v : World) (h : waiterDetached v) : waiterInert v := by
  obtain ⟨wt, hv, hta, hda⟩ := h
  intro r e ev
  unfold deliverOne
  simp only [hv, hta, hda, listenerWouldFire, Bool.false_and, Bool.false_eq_true,
    if_false]

theorem deliverOne_nofire (r : ThreadSt → ThreadSt) (e : ℚ) (ev : Ready)
    (w : World) (wt : WaiterSt) (th : Option Nat) (t d status : Nat)
    (hw : w.waiter = some wt) (harm : armedWaiter th t d status wt)
    (hm : eventMatchesArmed t d status ev = false) :
    deliverOne r e ev w = w := by
  have hm' := hm
  rw [Bool.eq_false_iff, Ne, matches_iff] at hm'
  push_neg at hm'
  have hTf : listenerWouldFire ev.target ev.mask wt.timerAttached wt.timer
      wt.timerListener = false := by
    rw [wouldFire_armed_timer ev wt th t d status harm]
    rcases Decidable.em (ev.target = t) with h | h
    · simp [h, hm'.1 h]
    · simp [h]
  have hDf : listenerWouldFire ev.target ev.mask wt.descAttached wt.descriptor
      wt.descListener = false := by
    rw [wouldFire_armed_desc ev wt th t d status harm]
    rcases Decidable.em (ev.target = d) with h | h
    · simp [h, hm'.2 h]
    · simp [h]
  unfold deliverOne
  simp only [hw, hTf, hDf, Bool.false_eq_true, if_false]

theorem deliverOne_fires (r : ThreadSt → ThreadSt) (e : ℚ) (ev : Ready)
    (w : World) (wt : WaiterSt) (th : Option Nat) (t d status : Nat)
    (hw : w.waiter = some wt) (harm : armedWaiter th t d status wt)
    (hm : eventMatchesArmed t d status ev = true) :
    (deliverOne r e ev w).notifyCount = w.notifyCount + 1
    ∧ waiterDetached (deliverOne r e ev w) := by
  have hfire := notify_fires r e w wt th t d status hw harm
  obtain ⟨wt', hw', hta', hda'⟩ := hfire.2
  have hsecond : listenerWouldFire ev.target ev.mask wt'.descAttached
      wt'.descriptor wt'.descListener = false := by
    simp [listenerWouldFire, hda']
  by_cases hT : listenerWouldFire ev.target ev.mask wt.timerAttached wt.timer
      wt.timerListener = true
  · unfold deliverOne
    simp only [hw, hT, if_true]
    simp only [hw', hsecond, Bool.false_eq_true, if_false]
    exact ⟨hfire.1, wt', hw', hta', hda'⟩
  · have hD : listenerWouldFire ev.target ev.mask wt.descAttached wt.descriptor
        wt.descListener = true := by
      rw [wouldFire_armed_desc ev wt th t d status harm]
      rw [wouldFire_armed_timer ev wt th t d status harm] at hT
      rw [matches_iff] at hm
      rcases hm with ⟨h1, h2⟩ | ⟨h1, h2⟩
      · exact absurd (by simp [h1, h2]) hT
      · simp [h1, h2]
    rw [Bool.not_eq_true] at hT
    unfold deliverOne
    simp only [hw, hT, Bool.false_eq_true, if_false]
    simp only [hw, hD, if_true]
    exact ⟨hfire.1, wt', hw', hta', hda'⟩

theorem deliverAll_inert (r : ThreadSt → ThreadSt) (e : ℚ) (evs : List Ready)
    (v : World) (h : waiterDetached v) : deliverAll r e evs v = v := by
  induction evs with
  | nil => rfl
  | cons ev evs ih =>
    have hone : deliverOne r e ev v = v := inert_of_detached v h r e ev
    show deliverAll r e evs (deliverOne r e ev v) = v
    rw [hone, ih]

theorem deliverAll_armed (r : ThreadSt → ThreadSt) (e : ℚ) (th : Option Nat)
    (t d status : Nat) (evs : List Ready) :
    ∀ (w : World) (wt : WaiterSt), w.waiter = some wt →
      armedWaiter th t d status wt →
      ((∀ ev ∈ evs, eventMatchesArmed t d status ev = false) →
        deliverAll r e evs w = w)
      ∧ ((∃ ev ∈ evs, eventMatchesArmed t d status ev = true) →
          (deliverAll r e evs w).notifyCount = w.notifyCount + 1
          ∧ waiterDetached (deliverAll r e evs w)) := by
  induction evs with
  | nil =>
    intro w wt hw harm
    exact ⟨fun _ => rfl, fun hex => by simp at hex⟩
  | cons ev evs ih =>
    intro w wt hw harm
    by_cases hm : eventMatchesArmed t d status ev = true
    · constructor
      · intro hall
        exact absurd (hall ev (by simp)) (by simp [hm])
      · intro _
        obtain ⟨hcnt, hdet⟩ :=
          deliverOne_fires r e ev w wt th t d status hw harm hm
        have hrest : deliverAll r e evs (deliverOne r e ev w)
            = deliverOne r e ev w := deliverAll_inert r e evs _ hdet
        show (deliverAll r e evs (deliverOne r e ev w)).notifyCount
              = w.notifyCount + 1
          ∧ waiterDetached (deliverAll r e evs (deliverOne r e ev w))
        rw [hrest]
        exact ⟨hcnt, hdet⟩
    · have hm' : eventMatchesArmed t d status ev = false :=
        Bool.not_eq_true _ ▸ (Bool.eq_false_iff.2 hm)
      have hone : deliverOne r e ev w = w :=
        deliverOne_nofire r e ev w wt th t d status hw harm hm'
      obtain ⟨h1, h2⟩ := ih w wt hw harm
      constructor
      · intro hall
        show deliverAll r e evs (deliverOne r e ev w) = w
        rw [hone]
        exact h1 fun x hx => hall x (List.mem_cons_of_mem _ hx)
      · intro hex
        obtain ⟨ev', hmem, hmv⟩ := hex
        rcases List.mem_cons.1 hmem with hx | hx
        · subst hx
          exact absurd hmv (by simp [hm'])
        · show (deliverAll r e evs (deliverOne r e ev w)).notifyCount
                = w.notifyCount + 1
            ∧ waiterDetached (deliverAll r e evs (deliverOne r e ev w))
          rw [hone]
          exact h2 ⟨ev', hx, hmv⟩

theorem listen_arms (w : World) (th : Option Nat) (t d status : Nat) :
    ∃ wt, (process_listenForStatus w th (some t) (some d) status).waiter = some wt
      ∧ armedWaiter th t d status wt := by
  cases th <;>
    simp [process_listenForStatus, process_ref, emit, emits, thread_ref,
      descriptor_ref, updateThread, armedWaiter]

/-- Claim C1: for a waiter armed by `process_listenForStatus` with both a
timer and a descriptor, delivering any sequence of readiness events that
contains at least one event matching either side invokes
`_process_notifyStatusChanged` exactly once for that waiter (whatever the
order or multiplicity of the events), and afterwards neither the timer nor
the descriptor can deliver a further callback bound to it: delivery of any
further event leaves the world unchanged. -/
theorem c1_single_fire (r : ThreadSt → ThreadSt) (e : ℚ) (w : World)
    (th : Option Nat) (t d status : Nat) (evs : List Ready)
    (hmatch : ∃ ev ∈ evs, eventMatchesArmed t d status ev = true) :
    (deliverAll r e evs
        (process_listenForStatus w th (some t) (some d) status)).notifyCount
      = (process_listenForStatus w th (some t) (some d) status).notifyCount + 1
    ∧ waiterInert (deliverAll r e evs
        (process_listenForStatus w th (some t) (some d) status)) := by
  obtain ⟨wt, hw, harm⟩ := listen_arms w th t d status
  obtain ⟨h1, h2⟩ :=
    (deliverAll_armed r e th t d status evs _ wt hw harm).2 hmatch
  exact ⟨h1, inert_of_detached _ h2⟩

/-- Witness for C1 at a concrete input: arming timer 4 and descriptor 9 for
status 2, then delivering the single event in which descriptor 9 raises
status 2, fires the waiter exactly once and leaves it inert. -/
theorem c1_single_fire_witness :
    ((deliverAll idResume 0 [⟨9, 2⟩]
        (process_listenForStatus wBase (some 0) (some 4) (some 9) 2)).notifyCount
      = (process_listenForStatus wBase (some 0) (some 4) (some 9) 2).notifyCount + 1)
    ∧ waiterInert (deliverAll idResume 0 [⟨9, 2⟩]
        (process_listenForStatus wBase (some 0) (some 4) (some 9) 2)) :=
  c1_single_fire idResume 0 wBase (some 0) 4 9 2 [⟨9, 2⟩]
    ⟨⟨9, 2⟩, by decide, by decide⟩

theorem unref_no_free (v : World) (h : 1 < v.procRefCount) :
    process_unref v
      = { v with procRefCount := v.procRefCount - 1,
                 trace := v.trace ++ [Ev.unrefProcess] } := by
  unfold process_unref
  simp only [emit]
  rw [if_neg (by omega), if_neg (by omega)]

theorem dlu_reduce_timer (v : World) (u : WaiterSt) (hv : v.waiter = some u)
    (h : 1 < v.procRefCount) :
    descriptorlistener_unref LSide.timer v
      = _process_unrefWaiter
          { v with
            waiter := some { u with timerListener := Option.map (fun l => { l with freed := true }) u.timerListener },
            procRefCount := v.procRefCount - 1,
            trace := (v.trace ++ [Ev.unrefListener LSide.timer])
              ++ [Ev.unrefProcess] } := by
  unfold descriptorlistener_unref process_unref
  simp only [emit, markListenerFreed, hv]
  split_ifs with h1 h2
  · exfalso
    simp at h1
    omega
  · exfalso
    simp at h2
    omega
  · rfl

theorem dlu_reduce_desc (v : World) (u : WaiterSt) (hv : v.waiter = some u)
    (h : 1 < v.procRefCount) :
    descriptorlistener_unref LSide.desc v
      = _process_unrefWaiter
          { v with
            waiter := some { u with descListener := Option.map (fun l => { l with freed := true }) u.descListener },
            procRefCount := v.procRefCount - 1,
            trace := (v.trace ++ [Ev.unrefListener LSide.desc])
              ++ [Ev.unrefProcess] } := by
  unfold descriptorlistener_unref process_unref
  simp only [emit, markListenerFreed, hv]
  split_ifs with h1 h2
  · exfalso
    simp at h1
    omega
  · exfalso
    simp at h2
    omega
  · rfl

theorem unrefWaiter_dec (v : World) (u : WaiterSt) (hv : v.waiter = some u)
    (h : 0 < u.refCount - 1) :
    _process_unrefWaiter v
      = { v with waiter := some { u with refCount := u.refCount - 1 } } := by
  unfold _process_unrefWaiter
  simp only [hv]
  rw [if_neg (by omega), if_neg (by omega)]

theorem unrefWaiter_zero (v : World) (u : WaiterSt) (th t d : Nat)
    (hv : v.waiter = some u) (h : u.refCount = 1) (hth : u.thread = some th)
    (htm : u.timer = some t) (hds : u.descriptor = some d) :
    _process_unrefWaiter v
      = { v with
          threads := updateThread v.threads th
            (fun s => { s with refCount := s.refCount - 1 }),
          trace := (((v.trace ++ [Ev.unrefThread th]) ++ [Ev.unrefDescriptor t])
            ++ [Ev.unrefDescriptor d]) ++ [Ev.freeWaiter],
          waiter := some { u with refCount := 0, freed := true } } := by
  unfold _process_unrefWaiter
  simp only [hv]
  rw [if_neg (by omega), if_pos (by omega)]
  simp only [hth, htm, hds, thread_unref, descriptor_unref, emit, updateThread]
  simp [World.mk.injEq, WaiterSt.mk.injEq]
  omega

/-- Claim C2: for a waiter with both sides armed, `_process_notifyStatusChanged`
performs exactly these steps in this order: (1) remove the timer listener
from the timer and disable its monitor mask, (2) remove the descriptor
listener from the descriptor and disable its monitor mask, (3) call
`process_continue` on the waiter's thread with exactly that detached state,
(4) unref both listeners — each unref releasing one process reference and
one waiter reference, the last one dropping the waiter's refcount to zero,
which unrefs the thread, the timer and the descriptor and frees the
waiter. -/
theorem c2_notify_steps (r : ThreadSt → ThreadSt) (e : ℚ) (w : World)
    (wt : WaiterSt) (th t d status : Nat)
    (hw : w.waiter = some wt) (harm : armedWaiter (some th) t d status wt)
    (hrc : 3 ≤ w.procRefCount) :
    (_process_notifyStatusChanged r e w).trace
      = (process_continue r e { w with notifyCount := w.notifyCount + 1, waiter := some { wt with timerAttached := false, timerListener := some ⟨DS_NONE, EdgeMode.never, false⟩, descAttached := false, descListener := some ⟨DS_NONE, EdgeMode.never, false⟩ }, trace := (w.trace ++ [Ev.removeListener LSide.timer, Ev.setMonitor LSide.timer DS_NONE EdgeMode.never]) ++ [Ev.removeListener LSide.desc, Ev.setMonitor LSide.desc DS_NONE EdgeMode.never] } (some th)).trace ++ [Ev.unrefListener LSide.timer, Ev.unrefProcess, Ev.unrefListener LSide.desc, Ev.unrefProcess, Ev.unrefThread th, Ev.unrefDescriptor t, Ev.unrefDescriptor d, Ev.freeWaiter]
    ∧ (_process_notifyStatusChanged r e w).waiter = some { wt with timerAttached := false, timerListener := some ⟨DS_NONE, EdgeMode.never, true⟩, descAttached := false, descListener := some ⟨DS_NONE, EdgeMode.never, true⟩, refCount := 0, freed := true }
    ∧ (_process_notifyStatusChanged r e w).procRefCount = w.procRefCount - 2
    ∧ (_process_notifyStatusChanged r e w).notifyCount = w.notifyCount + 1 := by
  obtain ⟨hth, htm, htl, hta, hds, hdl, hda, hrcw, hfr⟩ := harm
  have hstep : _process_notifyStatusChanged r e w
      = descriptorlistener_unref LSide.desc (descriptorlistener_unref LSide.timer (process_continue r e { w with notifyCount := w.notifyCount + 1, waiter := some { wt with timerAttached := false, timerListener := some ⟨DS_NONE, EdgeMode.never, false⟩, descAttached := false, descListener := some ⟨DS_NONE, EdgeMode.never, false⟩ }, trace := (w.trace ++ [Ev.removeListener LSide.timer, Ev.setMonitor LSide.timer DS_NONE EdgeMode.never]) ++ [Ev.removeListener LSide.desc, Ev.setMonitor LSide.desc DS_NONE EdgeMode.never] } (some th))) := by
    unfold _process_notifyStatusChanged
    simp only [hw, htm, htl, hds, hdl, hth, emits, Option.isSome_some,
      Option.map_some]
    rfl
  have hAw : (process_continue r e { w with notifyCount := w.notifyCount + 1, waiter := some { wt with timerAttached := false, timerListener := some ⟨DS_NONE, EdgeMode.never, false⟩, descAttached := false, descListener := some ⟨DS_NONE, EdgeMode.never, false⟩ }, trace := (w.trace ++ [Ev.removeListener LSide.timer, Ev.setMonitor LSide.timer DS_NONE EdgeMode.never]) ++ [Ev.removeListener LSide.desc, Ev.setMonitor LSide.desc DS_NONE EdgeMode.never] } (some th)).waiter = some { wt with timerAttached := false, timerListener := some ⟨DS_NONE, EdgeMode.never, false⟩, descAttached := false, descListener := some ⟨DS_NONE, EdgeMode.never, false⟩ } :=
    (continue_waiter r e { w with notifyCount := w.notifyCount + 1, waiter := some { wt with timerAttached := false, timerListener := some ⟨DS_NONE, EdgeMode.never, false⟩, descAttached := false, descListener := some ⟨DS_NONE, EdgeMode.never, false⟩ }, trace := (w.trace ++ [Ev.removeListener LSide.timer, Ev.setMonitor LSide.timer DS_NONE EdgeMode.never]) ++ [Ev.removeListener LSide.desc, Ev.setMonitor LSide.desc DS_NONE EdgeMode.never] } (some th)).trans rfl
  have hApc : (process_continue r e { w with notifyCount := w.notifyCount + 1, waiter := some { wt with timerAttached := false, timerListener := some ⟨DS_NONE, EdgeMode.never, false⟩, descAttached := false, descListener := some ⟨DS_NONE, EdgeMode.never, false⟩ }, trace := (w.trace ++ [Ev.removeListener LSide.timer, Ev.setMonitor LSide.timer DS_NONE EdgeMode.never]) ++ [Ev.removeListener LSide.desc, Ev.setMonitor LSide.desc DS_NONE EdgeMode.never] } (some th)).procRefCount = w.procRefCount :=
    (continue_procRefCount r e { w with notifyCount := w.notifyCount + 1, waiter := some { wt with timerAttached := false, timerListener := some ⟨DS_NONE, EdgeMode.never, false⟩, descAttached := false, descListener := some ⟨DS_NONE, EdgeMode.never, false⟩ }, trace := (w.trace ++ [Ev.removeListener LSide.timer, Ev.setMonitor LSide.timer DS_NONE EdgeMode.never]) ++ [Ev.removeListener LSide.desc, Ev.setMonitor LSide.desc DS_NONE EdgeMode.never] } (some th)).trans rfl
  have hAnc : (process_continue r e { w with notifyCount := w.notifyCount + 1, waiter := some { wt with timerAttached := false, timerListener := some ⟨DS_NONE, EdgeMode.never, false⟩, descAttached := false, descListener := some ⟨DS_NONE, EdgeMode.never, false⟩ }, trace := (w.trace ++ [Ev.removeListener LSide.timer, Ev.setMonitor LSide.timer DS_NONE EdgeMode.never]) ++ [Ev.removeListener LSide.desc, Ev.setMonitor LSide.desc DS_NONE EdgeMode.never] } (some th)).notifyCount = w.notifyCount + 1 :=
    (continue_notifyCount r e { w with notifyCount := w.notifyCount + 1, waiter := some { wt with timerAttached := false, timerListener := some ⟨DS_NONE, EdgeMode.never, false⟩, descAttached := false, descListener := some ⟨DS_NONE, EdgeMode.never, false⟩ }, trace := (w.trace ++ [Ev.removeListener LSide.timer, Ev.setMonitor LSide.timer DS_NONE EdgeMode.never]) ++ [Ev.removeListener LSide.desc, Ev.setMonitor LSide.desc DS_NONE EdgeMode.never] } (some th)).trans rfl
  have h1 : descriptorlistener_unref LSide.timer (process_continue r e { w with notifyCount := w.notifyCount + 1, waiter := some { wt with timerAttached := false, timerListener := some ⟨DS_NONE, EdgeMode.never, false⟩, descAttached := false, descListener := some ⟨DS_NONE, EdgeMode.never, false⟩ }, trace := (w.trace ++ [Ev.removeListener LSide.timer, Ev.setMonitor LSide.timer DS_NONE EdgeMode.never]) ++ [Ev.removeListener LSide.desc, Ev.setMonitor LSide.desc DS_NONE EdgeMode.never] } (some th)) = _process_unrefWaiter { (process_continue r e { w with notifyCount := w.notifyCount + 1, waiter := some { wt with timerAttached := false, timerListener := some ⟨DS_NONE, EdgeMode.never, false⟩, descAttached := false, descListener := some ⟨DS_NONE, EdgeMode.never, false⟩ }, trace := (w.trace ++ [Ev.removeListener LSide.timer, Ev.setMonitor LSide.timer DS_NONE EdgeMode.never]) ++ [Ev.removeListener LSide.desc, Ev.setMonitor LSide.desc DS_NONE EdgeMode.never] } (some th)) with waiter := some { wt with timerAttached := false, timerListener := some ⟨DS_NONE, EdgeMode.never, true⟩, descAttached := false, descListener := some ⟨DS_NONE, EdgeMode.never, false⟩ }, procRefCount := (process_continue r e { w with notifyCount := w.notifyCount + 1, waiter := some { wt with timerAttached := false, timerListener := some ⟨DS_NONE, EdgeMode.never, false⟩, descAttached := false, descListener := some ⟨DS_NONE, EdgeMode.never, false⟩ }, trace := (w.trace ++ [Ev.removeListener LSide.timer, Ev.setMonitor LSide.timer DS_NONE EdgeMode.never]) ++ [Ev.removeListener LSide.desc, Ev.setMonitor LSide.desc DS_NONE EdgeMode.never] } (some th)).procRefCount - 1, trace := ((process_continue r e { w with notifyCount := w.notifyCount + 1, waiter := some { wt with timerAttached := false, timerListener := some ⟨DS_NONE, EdgeMode.never, false⟩, descAttached := false, descListener := some ⟨DS_NONE, EdgeMode.never, false⟩ }, trace := (w.trace ++ [Ev.removeListener LSide.timer, Ev.setMonitor LSide.timer DS_NONE EdgeMode.never]) ++ [Ev.removeListener LSide.desc, Ev.setMonitor LSide.desc DS_NONE EdgeMode.never] } (some th)).trace ++ [Ev.unrefListener LSide.timer]) ++ [Ev.unrefProcess] } := by
    rw [dlu_reduce_timer (process_continue r e { w with notifyCount := w.notifyCount + 1, waiter := some { wt with timerAttached := false, timerListener := some ⟨DS_NONE, EdgeMode.never, false⟩, descAttached := false, descListener := some ⟨DS_NONE, EdgeMode.never, false⟩ }, trace := (w.trace ++ [Ev.removeListener LSide.timer, Ev.setMonitor LSide.timer DS_NONE EdgeMode.never]) ++ [Ev.removeListener LSide.desc, Ev.setMonitor LSide.desc DS_NONE EdgeMode.never] } (some th)) { wt with timerAttached := false, timerListener := some ⟨DS_NONE, EdgeMode.never, false⟩, descAttached := false, descListener := some ⟨DS_NONE, EdgeMode.never, false⟩ } hAw (by omega)]
    rfl
  have h2 : _process_unrefWaiter { (process_continue r e { w with notifyCount := w.notifyCount + 1, waiter := some { wt with timerAttached := false, timerListener := some ⟨DS_NONE, EdgeMode.never, false⟩, descAttached := false, descListener := some ⟨DS_NONE, EdgeMode.never, false⟩ }, trace := (w.trace ++ [Ev.removeListener LSide.timer, Ev.setMonitor LSide.timer DS_NONE EdgeMode.never]) ++ [Ev.removeListener LSide.desc, Ev.setMonitor LSide.desc DS_NONE EdgeMode.never] } (some th)) with waiter := some { wt with timerAttached := false, timerListener := some ⟨DS_NONE, EdgeMode.never, true⟩, descAttached := false, descListener := some ⟨DS_NONE, EdgeMode.never, false⟩ }, procRefCount := (process_continue r e { w with notifyCount := w.notifyCount + 1, waiter := some { wt with timerAttached := false, timerListener := some ⟨DS_NONE, EdgeMode.never, false⟩, descAttached := false, descListener := some ⟨DS_NONE, EdgeMode.never, false⟩ }, trace := (w.trace ++ [Ev.removeListener LSide.timer, Ev.setMonitor LSide.timer DS_NONE EdgeMode.never]) ++ [Ev.removeListener LSide.desc, Ev.setMonitor LSide.desc DS_NONE EdgeMode.never] } (some th)).procRefCount - 1, trace := ((process_continue r e { w with notifyCount := w.notifyCount + 1, waiter := some { wt with timerAttached := false, timerListener := some ⟨DS_NONE, EdgeMode.never, false⟩, descAttached := false, descListener := some ⟨DS_NONE, EdgeMode.never, false⟩ }, trace := (w.trace ++ [Ev.removeListener LSide.timer, Ev.setMonitor LSide.timer DS_NONE EdgeMode.never]) ++ [Ev.removeListener LSide.desc, Ev.setMonitor LSide.desc DS_NONE EdgeMode.never] } (some th)).trace ++ [Ev.unrefListener LSide.timer]) ++ [Ev.unrefProcess] } = { (process_continue r e { w with notifyCount := w.notifyCount + 1, waiter := some { wt with timerAttached := false, timerListener := some ⟨DS_NONE, EdgeMode.never, false⟩, descAttached := false, descListener := some ⟨DS_NONE, EdgeMode.never, false⟩ }, trace := (w.trace ++ [Ev.removeListener LSide.timer, Ev.setMonitor LSide.timer DS_NONE EdgeMode.never]) ++ [Ev.removeListener LSide.desc, Ev.setMonitor LSide.desc DS_NONE EdgeMode.never] } (some th)) with waiter := some { wt with timerAttached := false, timerListener := some ⟨DS_NONE, EdgeMode.never, true⟩, descAttached := false, descListener := some ⟨DS_NONE, EdgeMode.never, false⟩, refCount := wt.refCount - 1 }, procRefCount := (process_continue r e { w with notifyCount := w.notifyCount + 1, waiter := some { wt with timerAttached := false, timerListener := some ⟨DS_NONE, EdgeMode.never, false⟩, descAttached := false, descListener := some ⟨DS_NONE, EdgeMode.never, false⟩ }, trace := (w.trace ++ [Ev.removeListener LSide.timer, Ev.setMonitor LSide.timer DS_NONE EdgeMode.never]) ++ [Ev.removeListener LSide.desc, Ev.setMonitor LSide.desc DS_NONE EdgeMode.never] } (some th)).procRefCount - 1, trace := ((process_continue r e { w with notifyCount := w.notifyCount + 1, waiter := some { wt with timerAttached := false, timerListener := some ⟨DS_NONE, EdgeMode.never, false⟩, descAttached := false, descListener := some ⟨DS_NONE, EdgeMode.never, false⟩ }, trace := (w.trace ++ [Ev.removeListener LSide.timer, Ev.setMonitor LSide.timer DS_NONE EdgeMode.never]) ++ [Ev.removeListener LSide.desc, Ev.setMonitor LSide.desc DS_NONE EdgeMode.never] } (some th)).trace ++ [Ev.unrefListener LSide.timer]) ++ [Ev.unrefProcess] } := by
    rw [unrefWaiter_dec { (process_continue r e { w with notifyCount := w.notifyCount + 1, waiter := some { wt with timerAttached := false, timerListener := some ⟨DS_NONE, EdgeMode.never, false⟩, descAttached := false, descListener := some ⟨DS_NONE, EdgeMode.never, false⟩ }, trace := (w.trace ++ [Ev.removeListener LSide.timer, Ev.setMonitor LSide.timer DS_NONE EdgeMode.never]) ++ [Ev.removeListener LSide.desc, Ev.setMonitor LSide.desc DS_NONE EdgeMode.never] } (some th)) with waiter := some { wt with timerAttached := false, timerListener := some ⟨DS_NONE, EdgeMode.never, true⟩, descAttached := false, descListener := some ⟨DS_NONE, EdgeMode.never, false⟩ }, procRefCount := (process_continue r e { w with notifyCount := w.notifyCount + 1, waiter := some { wt with timerAttached := false, timerListener := some ⟨DS_NONE, EdgeMode.never, false⟩, descAttached := false, descListener := some ⟨DS_NONE, EdgeMode.never, false⟩ }, trace := (w.trace ++ [Ev.removeListener LSide.timer, Ev.setMonitor LSide.timer DS_NONE EdgeMode.never]) ++ [Ev.removeListener LSide.desc, Ev.setMonitor LSide.desc DS_NONE EdgeMode.never] } (some th)).procRefCount - 1, trace := ((process_continue r e { w with notifyCount := w.notifyCount + 1, waiter := some { wt with timerAttached := false, timerListener := some ⟨DS_NONE, EdgeMode.never, false⟩, descAttached := false, descListener := some ⟨DS_NONE, EdgeMode.never, false⟩ }, trace := (w.trace ++ [Ev.removeListener LSide.timer, Ev.setMonitor LSide.timer DS_NONE EdgeMode.never]) ++ [Ev.removeListener LSide.desc, Ev.setMonitor LSide.desc DS_NONE EdgeMode.never] } (some th)).trace ++ [Ev.unrefListener LSide.timer]) ++ [Ev.unrefProcess] } { wt with timerAttached := false, timerListener := some ⟨DS_NONE, EdgeMode.never, true⟩, descAttached := false, descListener := some ⟨DS_NONE, EdgeMode.never, false⟩ } rfl (by simp only [hrcw]; omega)]
  have h3 : descriptorlistener_unref LSide.desc { (process_continue r e { w with notifyCount := w.notifyCount + 1, waiter := some { wt with timerAttached := false, timerListener := some ⟨DS_NONE, EdgeMode.never, false⟩, descAttached := false, descListener := some ⟨DS_NONE, EdgeMode.never, false⟩ }, trace := (w.trace ++ [Ev.removeListener LSide.timer, Ev.setMonitor LSide.timer DS_NONE EdgeMode.never]) ++ [Ev.removeListener LSide.desc, Ev.setMonitor LSide.desc DS_NONE EdgeMode.never] } (some th)) with waiter := some { wt with timerAttached := false, timerListener := some ⟨DS_NONE, EdgeMode.never, true⟩, descAttached := false, descListener := some ⟨DS_NONE, EdgeMode.never, false⟩, refCount := wt.refCount - 1 }, procRefCount := (process_continue r e { w with notifyCount := w.notifyCount + 1, waiter := some { wt with timerAttached := false, timerListener := some ⟨DS_NONE, EdgeMode.never, false⟩, descAttached := false, descListener := some ⟨DS_NONE, EdgeMode.never, false⟩ }, trace := (w.trace ++ [Ev.removeListener LSide.timer, Ev.setMonitor LSide.timer DS_NONE EdgeMode.never]) ++ [Ev.removeListener LSide.desc, Ev.setMonitor LSide.desc DS_NONE EdgeMode.never] } (some th)).procRefCount - 1, trace := ((process_continue r e { w with notifyCount := w.notifyCount + 1, waiter := some { wt with timerAttached := false, timerListener := some ⟨DS_NONE, EdgeMode.never, false⟩, descAttached := false, descListener := some ⟨DS_NONE, EdgeMode.never, false⟩ }, trace := (w.trace ++ [Ev.removeListener LSide.timer, Ev.setMonitor LSide.timer DS_NONE EdgeMode.never]) ++ [Ev.removeListener LSide.desc, Ev.setMonitor LSide.desc DS_NONE EdgeMode.never] } (some th)).trace ++ [Ev.unrefListener LSide.timer]) ++ [Ev.unrefProcess] } = _process_unrefWaiter { (process_continue r e { w with notifyCount := w.notifyCount + 1, waiter := some { wt with timerAttached := false, timerListener := some ⟨DS_NONE, EdgeMode.never, false⟩, descAttached := false, descListener := some ⟨DS_NONE, EdgeMode.never, false⟩ }, trace := (w.trace ++ [Ev.removeListener LSide.timer, Ev.setMonitor LSide.timer DS_NONE EdgeMode.never]) ++ [Ev.removeListener LSide.desc, Ev.setMonitor LSide.desc DS_NONE EdgeMode.never] } (some th)) with waiter := some { wt with timerAttached := false, timerListener := some ⟨DS_NONE, EdgeMode.never, true⟩, descAttached := false, descListener := some ⟨DS_NONE, EdgeMode.never, true⟩, refCount := wt.refCount - 1 }, procRefCount := (process_continue r e { w with notifyCount := w.notifyCount + 1, waiter := some { wt with timerAttached := false, timerListener := some ⟨DS_NONE, EdgeMode.never, false⟩, descAttached := false, descListener := some ⟨DS_NONE, EdgeMode.never, false⟩ }, trace := (w.trace ++ [Ev.removeListener LSide.timer, Ev.setMonitor LSide.timer DS_NONE EdgeMode.never]) ++ [Ev.removeListener LSide.desc, Ev.setMonitor LSide.desc DS_NONE EdgeMode.never] } (some th)).procRefCount - 1 - 1, trace := ((((process_continue r e { w with notifyCount := w.notifyCount + 1, waiter := some { wt with timerAttached := false, timerListener := some ⟨DS_NONE, EdgeMode.never, false⟩, descAttached := false, descListener := some ⟨DS_NONE, EdgeMode.never, false⟩ }, trace := (w.trace ++ [Ev.removeListener LSide.timer, Ev.setMonitor LSide.timer DS_NONE EdgeMode.never]) ++ [Ev.removeListener LSide.desc, Ev.setMonitor LSide.desc DS_NONE EdgeMode.never] } (some th)).trace ++ [Ev.unrefListener LSide.timer]) ++ [Ev.unrefProcess]) ++ [Ev.unrefListener LSide.desc]) ++ [Ev.unrefProcess] } := by
    rw [dlu_reduce_desc { (process_continue r e { w with notifyCount := w.notifyCount + 1, waiter := some { wt with timerAttached := false, timerListener := some ⟨DS_NONE, EdgeMode.never, false⟩, descAttached := false, descListener := some ⟨DS_NONE, EdgeMode.never, false⟩ }, trace := (w.trace ++ [Ev.removeListener LSide.timer, Ev.setMonitor LSide.timer DS_NONE EdgeMode.never]) ++ [Ev.removeListener LSide.desc, Ev.setMonitor LSide.desc DS_NONE EdgeMode.never] } (some th)) with waiter := some { wt with timerAttached := false, timerListener := some ⟨DS_NONE, EdgeMode.never, true⟩, descAttached := false, descListener := some ⟨DS_NONE, EdgeMode.never, false⟩, refCount := wt.refCount - 1 }, procRefCount := (process_continue r e { w with notifyCount := w.notifyCount + 1, waiter := some { wt with timerAttached := false, timerListener := some ⟨DS_NONE, EdgeMode.never, false⟩, descAttached := false, descListener := some ⟨DS_NONE, EdgeMode.never, false⟩ }, trace := (w.trace ++ [Ev.removeListener LSide.timer, Ev.setMonitor LSide.timer DS_NONE EdgeMode.never]) ++ [Ev.removeListener LSide.desc, Ev.setMonitor LSide.desc DS_NONE EdgeMode.never] } (some th)).procRefCount - 1, trace := ((process_continue r e { w with notifyCount := w.notifyCount + 1, waiter := some { wt with timerAttached := false, timerListener := some ⟨DS_NONE, EdgeMode.never, false⟩, descAttached := false, descListener := some ⟨DS_NONE, EdgeMode.never, false⟩ }, trace := (w.trace ++ [Ev.removeListener LSide.timer, Ev.setMonitor LSide.timer DS_NONE EdgeMode.never]) ++ [Ev.removeListener LSide.desc, Ev.setMonitor LSide.desc DS_NONE EdgeMode.never] } (some th)).trace ++ [Ev.unrefListener LSide.timer]) ++ [Ev.unrefProcess] } { wt with timerAttached := false, timerListener := some ⟨DS_NONE, EdgeMode.never, true⟩, descAttached := false, descListener := some ⟨DS_NONE, EdgeMode.never, false⟩, refCount := wt.refCount - 1 } rfl (by simp only []; omega)]
    rfl
  have h4 : _process_unrefWaiter { (process_continue r e { w with notifyCount := w.notifyCount + 1, waiter := some { wt with timerAttached := false, timerListener := some ⟨DS_NONE, EdgeMode.never, false⟩, descAttached := false, descListener := some ⟨DS_NONE, EdgeMode.never, false⟩ }, trace := (w.trace ++ [Ev.removeListener LSide.timer, Ev.setMonitor LSide.timer DS_NONE EdgeMode.never]) ++ [Ev.removeListener LSide.desc, Ev.setMonitor LSide.desc DS_NONE EdgeMode.never] } (some th)) with waiter := some { wt with timerAttached := false, timerListener := some ⟨DS_NONE, EdgeMode.never, true⟩, descAttached := false, descListener := some ⟨DS_NONE, EdgeMode.never, true⟩, refCount := wt.refCount - 1 }, procRefCount := (process_continue r e { w with notifyCount := w.notifyCount + 1, waiter := some { wt with timerAttached := false, timerListener := some ⟨DS_NONE, EdgeMode.never, false⟩, descAttached := false, descListener := some ⟨DS_NONE, EdgeMode.never, false⟩ }, trace := (w.trace ++ [Ev.removeListener LSide.timer, Ev.setMonitor LSide.timer DS_NONE EdgeMode.never]) ++ [Ev.removeListener LSide.desc, Ev.setMonitor LSide.desc DS_NONE EdgeMode.never] } (some th)).procRefCount - 1 - 1, trace := ((((process_continue r e { w with notifyCount := w.notifyCount + 1, waiter := some { wt with timerAttached := false, timerListener := some ⟨DS_NONE, EdgeMode.never, false⟩, descAttached := false, descListener := some ⟨DS_NONE, EdgeMode.never, false⟩ }, trace := (w.trace ++ [Ev.removeListener LSide.timer, Ev.setMonitor LSide.timer DS_NONE EdgeMode.never]) ++ [Ev.removeListener LSide.desc, Ev.setMonitor LSide.desc DS_NONE EdgeMode.never] } (some th)).trace ++ [Ev.unrefListener LSide.timer]) ++ [Ev.unrefProcess]) ++ [Ev.unrefListener LSide.desc]) ++ [Ev.unrefProcess] } = { (process_continue r e { w with notifyCount := w.notifyCount + 1, waiter := some { wt with timerAttached := false, timerListener := some ⟨DS_NONE, EdgeMode.never, false⟩, descAttached := false, descListener := some ⟨DS_NONE, EdgeMode.never, false⟩ }, trace := (w.trace ++ [Ev.removeListener LSide.timer, Ev.setMonitor LSide.timer DS_NONE EdgeMode.never]) ++ [Ev.removeListener LSide.desc, Ev.setMonitor LSide.desc DS_NONE EdgeMode.never] } (some th)) with threads := updateThread (process_continue r e { w with notifyCount := w.notifyCount + 1, waiter := some { wt with timerAttached := false, timerListener := some ⟨DS_NONE, EdgeMode.never, false⟩, descAttached := false, descListener := some ⟨DS_NONE, EdgeMode.never, false⟩ }, trace := (w.trace ++ [Ev.removeListener LSide.timer, Ev.setMonitor LSide.timer DS_NONE EdgeMode.never]) ++ [Ev.removeListener LSide.desc, Ev.setMonitor LSide.desc DS_NONE EdgeMode.never] } (some th)).threads th (fun s => { s with refCount := s.refCount - 1 }), waiter := some { wt with timerAttached := false, timerListener := some ⟨DS_NONE, EdgeMode.never, true⟩, descAttached := false, descListener := some ⟨DS_NONE, EdgeMode.never, true⟩, refCount := 0, freed := true }, procRefCount := (process_continue r e { w with notifyCount := w.notifyCount + 1, waiter := some { wt with timerAttached := false, timerListener := some ⟨DS_NONE, EdgeMode.never, false⟩, descAttached := false, descListener := some ⟨DS_NONE, EdgeMode.never, false⟩ }, trace := (w.trace ++ [Ev.removeListener LSide.timer, Ev.setMonitor LSide.timer DS_NONE EdgeMode.never]) ++ [Ev.removeListener LSide.desc, Ev.setMonitor LSide.desc DS_NONE EdgeMode.never] } (some th)).procRefCount - 1 - 1, trace := (((((((((process_continue r e { w with notifyCount := w.notifyCount + 1, waiter := some { wt with timerAttached := false, timerListener := some ⟨DS_NONE, EdgeMode.never, false⟩, descAttached := false, descListener := some ⟨DS_NONE, EdgeMode.never, false⟩ }, trace := (w.trace ++ [Ev.removeListener LSide.timer, Ev.setMonitor LSide.timer DS_NONE EdgeMode.never]) ++ [Ev.removeListener LSide.desc, Ev.setMonitor LSide.desc DS_NONE EdgeMode.never] } (some th)).trace ++ [Ev.unrefListener LSide.timer]) ++ [Ev.unrefProcess]) ++ [Ev.unrefListener LSide.desc]) ++ [Ev.unrefProcess]) ++ [Ev.unrefThread th]) ++ [Ev.unrefDescriptor t]) ++ [Ev.unrefDescriptor d]) ++ [Ev.freeWaiter]) } := by
    rw [unrefWaiter_zero { (process_continue r e { w with notifyCount := w.notifyCount + 1, waiter := some { wt with timerAttached := false, timerListener := some ⟨DS_NONE, EdgeMode.never, false⟩, descAttached := false, descListener := some ⟨DS_NONE, EdgeMode.never, false⟩ }, trace := (w.trace ++ [Ev.removeListener LSide.timer, Ev.setMonitor LSide.timer DS_NONE EdgeMode.never]) ++ [Ev.removeListener LSide.desc, Ev.setMonitor LSide.desc DS_NONE EdgeMode.never] } (some th)) with waiter := some { wt with timerAttached := false, timerListener := some ⟨DS_NONE, EdgeMode.never, true⟩, descAttached := false, descListener := some ⟨DS_NONE, EdgeMode.never, true⟩, refCount := wt.refCount - 1 }, procRefCount := (process_continue r e { w with notifyCount := w.notifyCount + 1, waiter := some { wt with timerAttached := false, timerListener := some ⟨DS_NONE, EdgeMode.never, false⟩, descAttached := false, descListener := some ⟨DS_NONE, EdgeMode.never, false⟩ }, trace := (w.trace ++ [Ev.removeListener LSide.timer, Ev.setMonitor LSide.timer DS_NONE EdgeMode.never]) ++ [Ev.removeListener LSide.desc, Ev.setMonitor LSide.desc DS_NONE EdgeMode.never] } (some th)).procRefCount - 1 - 1, trace := ((((process_continue r e { w with notifyCount := w.notifyCount + 1, waiter := some { wt with timerAttached := false, timerListener := some ⟨DS_NONE, EdgeMode.never, false⟩, descAttached := false, descListener := some ⟨DS_NONE, EdgeMode.never, false⟩ }, trace := (w.trace ++ [Ev.removeListener LSide.timer, Ev.setMonitor LSide.timer DS_NONE EdgeMode.never]) ++ [Ev.removeListener LSide.desc, Ev.setMonitor LSide.desc DS_NONE EdgeMode.never] } (some th)).trace ++ [Ev.unrefListener LSide.timer]) ++ [Ev.unrefProcess]) ++ [Ev.unrefListener LSide.desc]) ++ [Ev.unrefProcess] } { wt with timerAttached := false, timerListener := some ⟨DS_NONE, EdgeMode.never, true⟩, descAttached := false, descListener := some ⟨DS_NONE, EdgeMode.never, true⟩, refCount := wt.refCount - 1 } th t d rfl (by simp only [hrcw]; omega) (by simpa using hth) (by simpa using htm) (by simpa using hds)]
  rw [hstep, h1, h2, h3, h4]
  refine ⟨by simp [List.append_assoc], by simp, by simp only []; omega, by simpa using hAnc⟩

/-- Witness for C2 at a concrete input: an armed waiter (thread 0, timer 4,
descriptor 9, status 2, two references) on a process with three references
ends up freed with refcount 0, both listeners disabled and released, and
the process loses exactly the two listener-held references. -/
theorem c2_notify_steps_witness :
    (_process_notifyStatusChanged idResume 0 { wBase with procRefCount := 3, waiter := some ⟨some 0, some 4, some ⟨DS_READABLE, EdgeMode.offToOn, false⟩, true, some 9, some ⟨2, EdgeMode.offToOn, false⟩, true, 2, false⟩ }).waiter
      = some ⟨some 0, some 4, some ⟨DS_NONE, EdgeMode.never, true⟩, false, some 9, some ⟨DS_NONE, EdgeMode.never, true⟩, false, 0, true⟩
    ∧ (_process_notifyStatusChanged idResume 0 { wBase with procRefCount := 3, waiter := some ⟨some 0, some 4, some ⟨DS_READABLE, EdgeMode.offToOn, false⟩, true, some 9, some ⟨2, EdgeMode.offToOn, false⟩, true, 2, false⟩ }).procRefCount = 1
    ∧ (_process_notifyStatusChanged idResume 0 { wBase with procRefCount := 3, waiter := some ⟨some 0, some 4, some ⟨DS_READABLE, EdgeMode.offToOn, false⟩, true, some 9, some ⟨2, EdgeMode.offToOn, false⟩, true, 2, false⟩ }).notifyCount = 1 :=
  ⟨(c2_notify_steps idResume 0 { wBase with procRefCount := 3, waiter := some ⟨some 0, some 4, some ⟨DS_READABLE, EdgeMode.offToOn, false⟩, true, some 9, some ⟨2, EdgeMode.offToOn, false⟩, true, 2, false⟩ } ⟨some 0, some 4, some ⟨DS_READABLE, EdgeMode.offToOn, false⟩, true, some 9, some ⟨2, EdgeMode.offToOn, false⟩, true, 2, false⟩ 0 4 9 2 rfl ⟨rfl, rfl, rfl, rfl, rfl, rfl, rfl, rfl, rfl⟩ (by decide)).2.1,
   (c2_notify_steps idResume 0 { wBase with procRefCount := 3, waiter := some ⟨some 0, some 4, some ⟨DS_READABLE, EdgeMode.offToOn, false⟩, true, some 9, some ⟨2, EdgeMode.offToOn, false⟩, true, 2, false⟩ } ⟨some 0, some 4, some ⟨DS_READABLE, EdgeMode.offToOn, false⟩, true, some 9, some ⟨2, EdgeMode.offToOn, false⟩, true, 2, false⟩ 0 4 9 2 rfl ⟨rfl, rfl, rfl, rfl, rfl, rfl, rfl, rfl, rfl⟩ (by decide)).2.2.1,
   (c2_notify_steps idResume 0 { wBase with procRefCount := 3, waiter := some ⟨some 0, some 4, some ⟨DS_READABLE, EdgeMode.offToOn, false⟩, true, some 9, some ⟨2, EdgeMode.offToOn, false⟩, true, 2, false⟩ } ⟨some 0, some 4, some ⟨DS_READABLE, EdgeMode.offToOn, false⟩, true, some 9, some ⟨2, EdgeMode.offToOn, false⟩, true, 2, false⟩ 0 4 9 2 rfl ⟨rfl, rfl, rfl, rfl, rfl, rfl, rfl, rfl, rfl⟩ (by decide)).2.2.2⟩

/-- Claim C6 (code-bug evidence): `process_continue` and `process_stop` do
clear `isExecuting` before returning, but `_process_start` sets it true
before `thread_run` and never clears it — at a concrete input (fresh
process, guest exits immediately, stdout/stderr opened as fds 3 and 4) the
flag is still latched true after `_process_start` returns, with no abort on
the path. -/
theorem c6_start_leaves_isExecuting :
    (_process_start exitResume 3 4 0 wBase).isExecuting = true
    ∧ (_process_start exitResume 3 4 0 wBase).aborted = false
    ∧ (_process_start idResume 3 4 0 wBase).isExecuting = true
    ∧ (process_continue idResume 0 wRunning none).isExecuting = false
    ∧ (process_stop 0 wRunning).isExecuting = false := by
  refine ⟨?_, ?_, ?_, ?_, ?_⟩ <;> decide
